import Mathlib

/-!
Verification of the voicemaker multi-engine voice-synthesis façade.

This file is a shallow embedding of the request validation, file staging,
backend dispatch and temporary-file lifecycle logic of the repository
(`app.py`, `voice_converter.py`, `index_tts_converter.py`,
`coqui_tts_converter.py`).  The third-party model runtimes (Edge-TTS,
Index-TTS2, Coqui TTS) are opaque external collaborators: each call into
them is recorded as a `BackendCall` value, and their success or failure is
a parameter `mb : BackendCall → Option String` (`none` = the call returns
normally, `some msg` = the call raises with message `msg`).

The filesystem is a finite association of existing paths to byte sizes.
Python exceptions are modelled with `Except`; HTTP handlers return a
structured outcome carrying the status code, the filesystem after the
request, the backend calls performed, and the temporary paths staged.
-/

/-- A filesystem: a finite list of (existing path, byte size) pairs. -/
abbrev FS := List (String × Nat)

/-- Models `os.path.exists`. -/
def pathExists (fs : FS) (p : String) : Bool :=
  fs.any (fun e => e.1 == p)

/-- Models `os.path.getsize` (0 if absent; callers only use it on existing paths). -/
def fileSize (fs : FS) (p : String) : Nat :=
  (((fs.find? (fun e => e.1 == p)).map Prod.snd).getD 0)

/-- Models writing a file (`file.save(path)` / the model writing its output). -/
def fsSave (fs : FS) (p : String) (sz : Nat) : FS :=
  (p, sz) :: fs.filter (fun e => ! (e.1 == p))

/-- Models `os.remove`. -/
def fsRemove (fs : FS) (p : String) : FS :=
  fs.filter (fun e => ! (e.1 == p))

/-- Error taxonomy for exceptions raised by the converter layer:
`referenceNotFound` = Python `FileNotFoundError` naming the missing path,
`invalidDimension` = `ValueError("Emotion vector must have exactly 8 elements")`,
`engineUnavailable` = `RuntimeError("... is not available ...")`,
`synthesisFailure` = an exception raised by the underlying model call. -/
inductive TTSError where
  | referenceNotFound (path : String)
  | invalidDimension
  | engineUnavailable
  | synthesisFailure (msg : String)
deriving DecidableEq, Repr

/-- One invocation of a third-party model runtime, with the arguments the
source passes to it. -/
inductive BackendCall where
  /-- `edge_tts.Communicate(text, voice).save(output_path)` -/
  | edgeTTS (text voice output_path : String)
  /-- `self.model.infer(spk_audio_prompt, text, output_path, [emo_audio_prompt],
  [emo_alpha], [emo_vector], [use_random])` of Index-TTS2 -/
  | indexInfer (spk_audio_prompt text output_path : String)
      (emo_audio_prompt : Option String) (emo_alpha : Option ℚ)
      (emo_vector : Option (List ℚ)) (use_random : Bool)
  /-- `self.tts.tts_to_file(text, [language], file_path)` of Coqui TTS -/
  | coquiTtsPlain (text : String) (language : Option String) (output_path : String)
  /-- `self.tts.tts_to_file(text, speaker_wav, language, file_path)` of Coqui TTS -/
  | coquiTtsClone (text speaker_wav language output_path : String)
  /-- `self.tts.tts_with_vc_to_file(text, speaker_wav, file_path)` of Coqui TTS -/
  | coquiTtsWithVc (text speaker_wav output_path : String)
  /-- `self.tts.voice_conversion_to_file(source_wav, target_wav, file_path)` of Coqui TTS -/
  | coquiVoiceConv (source_wav target_wav output_path : String)
deriving DecidableEq, Repr

/-- Byte size of a produced output file; its value is opaque to this model. -/
def OUTPUT_SIZE : Nat := 1

/-- Outcome of one converter method: the returned path or raised exception,
the filesystem afterwards, and the model invocations performed. -/
structure MethodOut where
  result : Except TTSError String
  fsAfter : FS
  calls : List BackendCall

/-- Models `max(0.0, min(1.0, x))` from `index_tts_converter.py` lines 168 and 222. -/
def clampQ (x : ℚ) : ℚ := max 0 (min 1 x)

/-- State of an `IndexTTSConverter` instance: `is_available` as recorded by
`__init__` (true iff `_initialize_model` did not raise). -/
structure IndexTTSConverter where
  is_available : Bool
deriving DecidableEq, Repr

/-- `IndexTTSConverter.is_model_available`: returns the recorded flag. -/
def IndexTTSConverter.is_model_available (c : IndexTTSConverter) : Bool :=
  c.is_available

/-- `IndexTTSConverter.clone_voice` (index_tts_converter.py lines 90-132). -/
def IndexTTSConverter.clone_voice (c : IndexTTSConverter)
    (mb : BackendCall → Option String) (fs : FS)
    (text reference_audio output_path : String) : MethodOut :=
  if ! c.is_available then ⟨.error .engineUnavailable, fs, []⟩
  else if ! pathExists fs reference_audio then
    ⟨.error (.referenceNotFound reference_audio), fs, []⟩
  else
    let call : BackendCall := .indexInfer reference_audio text output_path none none none false
    match mb call with
    | some msg => ⟨.error (.synthesisFailure msg), fs, [call]⟩
    | none => ⟨.ok output_path, fsSave fs output_path OUTPUT_SIZE, [call]⟩

/-- `IndexTTSConverter.synthesize_with_emotion_audio`
(index_tts_converter.py lines 134-185): intensity is clamped, never rejected. -/
def IndexTTSConverter.synthesize_with_emotion_audio (c : IndexTTSConverter)
    (mb : BackendCall → Option String) (fs : FS)
    (text speaker_audio emotion_audio output_path : String)
    (emotion_intensity : ℚ) : MethodOut :=
  if ! c.is_available then ⟨.error .engineUnavailable, fs, []⟩
  else if ! pathExists fs speaker_audio then
    ⟨.error (.referenceNotFound speaker_audio), fs, []⟩
  else if ! pathExists fs emotion_audio then
    ⟨.error (.referenceNotFound emotion_audio), fs, []⟩
  else
    let ei := clampQ emotion_intensity
    let call : BackendCall :=
      .indexInfer speaker_audio text output_path (some emotion_audio) (some ei) none false
    match mb call with
    | some msg => ⟨.error (.synthesisFailure msg), fs, [call]⟩
    | none => ⟨.ok output_path, fsSave fs output_path OUTPUT_SIZE, [call]⟩

/-- `IndexTTSConverter.synthesize_with_emotion_vector`
(index_tts_converter.py lines 187-239): availability check, speaker existence
check, length-8 check, then element-wise clamping. -/
def IndexTTSConverter.synthesize_with_emotion_vector (c : IndexTTSConverter)
    (mb : BackendCall → Option String) (fs : FS)
    (text speaker_audio : String) (emotion_vector : List ℚ)
    (output_path : String) (use_random : Bool) : MethodOut :=
  if ! c.is_available then ⟨.error .engineUnavailable, fs, []⟩
  else if ! pathExists fs speaker_audio then
    ⟨.error (.referenceNotFound speaker_audio), fs, []⟩
  else if emotion_vector.length ≠ 8 then ⟨.error .invalidDimension, fs, []⟩
  else
    let ev := emotion_vector.map clampQ
    let call : BackendCall :=
      .indexInfer speaker_audio text output_path none none (some ev) use_random
    match mb call with
    | some msg => ⟨.error (.synthesisFailure msg), fs, [call]⟩
    | none => ⟨.ok output_path, fsSave fs output_path OUTPUT_SIZE, [call]⟩

/-- Substring helper: does the character list start with `needle`? -/
def hasPrefixChars : List Char → List Char → Bool
  | [], _ => true
  | _ :: _, [] => false
  | a :: as, b :: bs => a == b && hasPrefixChars as bs

/-- Substring helper: does `needle` occur inside the haystack? -/
def containsChars : List Char → List Char → Bool
  | needle, [] => needle.isEmpty
  | needle, b :: bs => hasPrefixChars needle (b :: bs) || containsChars needle bs

/-- Models the Python substring test `needle in hay`. -/
def strContainsSub (hay needle : String) : Bool :=
  containsChars needle.data hay.data

/-- Default Coqui model name (coqui_tts_converter.py line 21). -/
def XTTS_V2 : String := "tts_models/multilingual/multi-dataset/xtts_v2"

/-- State of a `CoquiTTSConverter` instance. -/
structure CoquiTTSConverter where
  is_available : Bool
  model_name : String
deriving DecidableEq, Repr

/-- `CoquiTTSConverter.is_model_available`: returns the recorded flag. -/
def CoquiTTSConverter.is_model_available (c : CoquiTTSConverter) : Bool :=
  c.is_available

/-- `CoquiTTSConverter.synthesize` (coqui_tts_converter.py lines 70-105). -/
def CoquiTTSConverter.synthesize (c : CoquiTTSConverter)
    (mb : BackendCall → Option String) (fs : FS)
    (text output_path language : String) : MethodOut :=
  if ! c.is_available then ⟨.error .engineUnavailable, fs, []⟩
  else
    let call : BackendCall :=
      if ! strContainsSub c.model_name "multilingual" then
        .coquiTtsPlain text none output_path
      else
        .coquiTtsPlain text (some language) output_path
    match mb call with
    | some msg => ⟨.error (.synthesisFailure msg), fs, [call]⟩
    | none => ⟨.ok output_path, fsSave fs output_path OUTPUT_SIZE, [call]⟩

/-- `CoquiTTSConverter.clone_voice` (coqui_tts_converter.py lines 107-149). -/
def CoquiTTSConverter.clone_voice (c : CoquiTTSConverter)
    (mb : BackendCall → Option String) (fs : FS)
    (text speaker_wav output_path language : String) : MethodOut :=
  if ! c.is_available then ⟨.error .engineUnavailable, fs, []⟩
  else if ! pathExists fs speaker_wav then
    ⟨.error (.referenceNotFound speaker_wav), fs, []⟩
  else
    let call : BackendCall := .coquiTtsClone text speaker_wav language output_path
    match mb call with
    | some msg => ⟨.error (.synthesisFailure msg), fs, [call]⟩
    | none => ⟨.ok output_path, fsSave fs output_path OUTPUT_SIZE, [call]⟩

/-- `CoquiTTSConverter.convert_voice` (coqui_tts_converter.py lines 151-202):
both existence checks, then either the TTS fallback (empty text, target as
speaker reference, source unused) or the dedicated conversion model. -/
def CoquiTTSConverter.convert_voice (c : CoquiTTSConverter)
    (mb : BackendCall → Option String) (fs : FS)
    (source_wav target_wav output_path : String) : MethodOut :=
  if ! c.is_available then ⟨.error .engineUnavailable, fs, []⟩
  else if ! pathExists fs source_wav then
    ⟨.error (.referenceNotFound source_wav), fs, []⟩
  else if ! pathExists fs target_wav then
    ⟨.error (.referenceNotFound target_wav), fs, []⟩
  else
    let call : BackendCall :=
      if ! strContainsSub c.model_name "voice_conversion" then
        .coquiTtsWithVc "" target_wav output_path
      else
        .coquiVoiceConv source_wav target_wav output_path
    match mb call with
    | some msg => ⟨.error (.synthesisFailure msg), fs, [call]⟩
    | none => ⟨.ok output_path, fsSave fs output_path OUTPUT_SIZE, [call]⟩

/-- State of the Edge-TTS `VoiceConverter`: the loaded voice names. -/
structure VoiceConverter where
  available_voices : List String
deriving DecidableEq, Repr

/-- `VoiceConverter.text_to_speech` (voice_converter.py lines 77-109):
an unknown voice falls back to the default voice, then the Edge-TTS call. -/
def VoiceConverter.text_to_speech (c : VoiceConverter)
    (mb : BackendCall → Option String) (fs : FS)
    (text voice_name output_path : String) : MethodOut :=
  let v := if c.available_voices.contains voice_name then voice_name
           else "en-US-AriaNeural"
  let call : BackendCall := .edgeTTS text v output_path
  match mb call with
  | some msg => ⟨.error (.synthesisFailure msg), fs, [call]⟩
  | none => ⟨.ok output_path, fsSave fs output_path OUTPUT_SIZE, [call]⟩

/-- The structured validation result `{valid, size?, path?, recommended?, error?}`. -/
structure ValidationResult where
  valid : Bool
  size : Option Nat
  path : Option String
  recommended : Option Bool
  error : Option String
deriving DecidableEq, Repr

/-- `VoiceConverter.validate_audio_file` (voice_converter.py lines 111-136):
existence check only; every existing file is valid, no size bounds, no
`recommended` key.  (`self` is unused by the source method and omitted.) -/
def VoiceConverter.validate_audio_file (fs : FS) (audio_path : String) :
    ValidationResult :=
  if ! pathExists fs audio_path then
    ⟨false, none, none, none, some "File does not exist"⟩
  else
    ⟨true, some (fileSize fs audio_path), some audio_path, none, none⟩

/-- `IndexTTSConverter.validate_audio_file` (index_tts_converter.py lines
241-281): existence check, then the 10000-byte and 50 MB size bounds, with
`recommended = (10000 < size < 5000000)`. -/
def IndexTTSConverter.validate_audio_file (fs : FS) (audio_path : String) :
    ValidationResult :=
  if ! pathExists fs audio_path then
    ⟨false, none, none, none, some "File does not exist"⟩
  else
    let file_size := fileSize fs audio_path
    if file_size < 10000 then
      ⟨false, none, none, none,
        some "Audio file too small (minimum 3 seconds recommended)"⟩
    else if file_size > 50 * 1024 * 1024 then
      ⟨false, none, none, none, some "Audio file too large (maximum 50MB)"⟩
    else
      ⟨true, some file_size, some audio_path,
        some (decide (10000 < file_size ∧ file_size < 5000000)), none⟩

/-- `CoquiTTSConverter.validate_audio_file` (coqui_tts_converter.py lines
307-347); its body is character-identical to the Index-TTS one. -/
def CoquiTTSConverter.validate_audio_file (fs : FS) (audio_path : String) :
    ValidationResult :=
  if ! pathExists fs audio_path then
    ⟨false, none, none, none, some "File does not exist"⟩
  else
    let file_size := fileSize fs audio_path
    if file_size < 10000 then
      ⟨false, none, none, none,
        some "Audio file too small (minimum 3 seconds recommended)"⟩
    else if file_size > 50 * 1024 * 1024 then
      ⟨false, none, none, none, some "Audio file too large (maximum 50MB)"⟩
    else
      ⟨true, some file_size, some audio_path,
        some (decide (10000 < file_size ∧ file_size < 5000000)), none⟩

/-- Models `tempfile.gettempdir()`: the upload folder of app.py line 26. -/
def UPLOAD_FOLDER : String := "/tmp"

/-- Models `os.path.join(dir, f)` for the absolute-dir, relative-file uses in app.py. -/
def joinPath (dir f : String) : String := dir ++ "/" ++ f

/-- app.py line 27. -/
def ALLOWED_AUDIO_EXTENSIONS : List String := ["wav", "mp3", "ogg", "flac", "m4a"]

/-- The characters after the last dot of a filename, or `none` when the
filename has no dot (models `filename.rsplit('.', 1)[1]` guarded by `'.' in filename`). -/
def extAfterLastDot (s : String) : Option (List Char) :=
  let sp := s.data.reverse.span (fun c => ! (c == '.'))
  match sp.2 with
  | [] => none
  | _ :: _ => some sp.1.reverse

/-- `allowed_file` (app.py lines 69-72). -/
def allowed_file (filename : String) : Bool :=
  match extAfterLastDot filename with
  | none => false
  | some ext => ALLOWED_AUDIO_EXTENSIONS.contains (String.mk (ext.map Char.toLower))

/-- Characters kept by the filename sanitizer. -/
def keepChar (c : Char) : Bool :=
  c.isAlphanum || c == '.' || c == '-' || c == '_'

/-- Model of `werkzeug.utils.secure_filename` (external library, not part of
this repository): a pure, deterministic sanitization of the client filename.
Only purity and preservation of alphanumeric/dot/dash/underscore characters
matter for the claims; other characters are dropped. -/
def secure_filename (s : String) : String :=
  String.mk (s.data.filter keepChar)

/-- An uploaded multipart file: its client filename and content size. -/
structure UploadedFile where
  filename : String
  contentSize : Nat
deriving DecidableEq, Repr

/-- Models the Python test `not text or len(text.strip()) == 0`
(equivalently: every character of the text is whitespace). -/
def stripEmpty (s : String) : Bool := s.data.all Char.isWhitespace

/-- Models Python string falsiness `not text` (empty string). -/
def pyFalsy (s : String) : Bool := s.data.isEmpty

/-- Outcome of an HTTP handler: status code, filesystem after the request,
backend calls performed, and the temporary input paths staged by the request. -/
structure HttpOut where
  status : Nat
  fsAfter : FS
  calls : List BackendCall
  staged : List String

/-- `text_to_speech` handler, `POST /api/convert/text-to-speech`
(app.py lines 176-221). -/
def text_to_speech (vc : VoiceConverter) (mb : BackendCall → Option String)
    (fs : FS) (textForm voiceForm : Option String) : HttpOut :=
  match textForm, voiceForm with
  | none, _ => ⟨400, fs, [], []⟩
  | some _, none => ⟨400, fs, [], []⟩
  | some text, some voice_name =>
    if stripEmpty text then ⟨400, fs, [], []⟩
    else if text.length > 5000 then ⟨400, fs, [], []⟩
    else
      let output_path := joinPath UPLOAD_FOLDER "output_tts.mp3"
      let m := VoiceConverter.text_to_speech vc mb fs text voice_name output_path
      match m.result with
      | .error _ => ⟨500, m.fsAfter, m.calls, []⟩
      | .ok _ => ⟨200, m.fsAfter, m.calls, []⟩

/-- Outcome of the validate-audio handler: status, the validation JSON body
(when one is returned), and the filesystem after the request. -/
structure ValidateOut where
  status : Nat
  validation : Option ValidationResult
  fsAfter : FS
deriving DecidableEq, Repr

/-- `validate_audio` handler, `POST /api/validate-audio` (app.py lines
224-260): extension allow-list at the endpoint, then
`VoiceConverter.validate_audio_file` on the staged copy. -/
def validate_audio (fs : FS) (audioFile : Option UploadedFile) : ValidateOut :=
  match audioFile with
  | none => ⟨400, none, fs⟩
  | some audio_file =>
    if pyFalsy audio_file.filename then ⟨400, none, fs⟩
    else if ! allowed_file audio_file.filename then ⟨400, none, fs⟩
    else
      let temp_path := joinPath UPLOAD_FOLDER ("temp_" ++ secure_filename audio_file.filename)
      let fs1 := fsSave fs temp_path audio_file.contentSize
      let validation := VoiceConverter.validate_audio_file fs1 temp_path
      let fs2 := fsRemove fs1 temp_path
      ⟨200, some validation, fs2⟩

/-- `index_tts_clone_voice` handler, `POST /api/index-tts/clone-voice`
(app.py lines 263-328).  The reference upload is staged to
`ref_<secure_filename>`; it is removed only after a successful backend call
(the 503 and exception paths return without removing it). -/
def index_tts_clone_voice (conv : IndexTTSConverter)
    (mb : BackendCall → Option String) (fs : FS)
    (textForm : Option String) (referenceFile : Option UploadedFile) : HttpOut :=
  match textForm, referenceFile with
  | none, _ => ⟨400, fs, [], []⟩
  | some _, none => ⟨400, fs, [], []⟩
  | some text, some reference_file =>
    if stripEmpty text then ⟨400, fs, [], []⟩
    else if text.length > 5000 then ⟨400, fs, [], []⟩
    else if pyFalsy reference_file.filename then ⟨400, fs, [], []⟩
    else if ! allowed_file reference_file.filename then ⟨400, fs, [], []⟩
    else
      let ref_path := joinPath UPLOAD_FOLDER ("ref_" ++ secure_filename reference_file.filename)
      let fs1 := fsSave fs ref_path reference_file.contentSize
      let output_path := joinPath UPLOAD_FOLDER "output_index_tts.wav"
      if ! conv.is_model_available then ⟨503, fs1, [], [ref_path]⟩
      else
        let m := IndexTTSConverter.clone_voice conv mb fs1 text ref_path output_path
        match m.result with
        | .error _ => ⟨500, m.fsAfter, m.calls, [ref_path]⟩
        | .ok _ => ⟨200, fsRemove m.fsAfter ref_path, m.calls, [ref_path]⟩

/-- Form/file inputs of the synthesize-emotion handler. -/
structure EmotionRequest where
  textForm : Option String
  speakerFile : Option UploadedFile
  emotion_mode : String
  emotionAudioFile : Option UploadedFile
  emotionVectorForm : Option (List ℚ)
  emotion_intensity : ℚ

/-- Audio-mode branch of the synthesize-emotion handler (app.py lines
382-396): stage the emotion upload, synthesize, remove the emotion file only
on success, then fall through to the shared speaker-file cleanup. -/
def emotionAudioBranch (conv : IndexTTSConverter)
    (mb : BackendCall → Option String) (fs1 : FS)
    (text spk_path output_path : String) (emotion_file : UploadedFile)
    (emotion_intensity : ℚ) : HttpOut :=
  let emo_path := joinPath UPLOAD_FOLDER ("emo_" ++ secure_filename emotion_file.filename)
  let fs2 := fsSave fs1 emo_path emotion_file.contentSize
  let m := IndexTTSConverter.synthesize_with_emotion_audio conv mb fs2
              text spk_path emo_path output_path emotion_intensity
  match m.result with
  | .error _ => ⟨500, m.fsAfter, m.calls, [spk_path, emo_path]⟩
  | .ok _ =>
    let fs3 := fsRemove m.fsAfter emo_path
    ⟨200, fsRemove fs3 spk_path, m.calls, [spk_path, emo_path]⟩

/-- Vector-mode branch of the synthesize-emotion handler (app.py lines
398-406). -/
def emotionVectorBranch (conv : IndexTTSConverter)
    (mb : BackendCall → Option String) (fs1 : FS)
    (text spk_path output_path : String) (vec : List ℚ) : HttpOut :=
  let m := IndexTTSConverter.synthesize_with_emotion_vector conv mb fs1
              text spk_path vec output_path false
  match m.result with
  | .error _ => ⟨500, m.fsAfter, m.calls, [spk_path]⟩
  | .ok _ => ⟨200, fsRemove m.fsAfter spk_path, m.calls, [spk_path]⟩

/-- No-emotion branch of the synthesize-emotion handler (app.py lines 408-411). -/
def emotionCloneBranch (conv : IndexTTSConverter)
    (mb : BackendCall → Option String) (fs1 : FS)
    (text spk_path output_path : String) : HttpOut :=
  let m := IndexTTSConverter.clone_voice conv mb fs1 text spk_path output_path
  match m.result with
  | .error _ => ⟨500, m.fsAfter, m.calls, [spk_path]⟩
  | .ok _ => ⟨200, fsRemove m.fsAfter spk_path, m.calls, [spk_path]⟩

/-- `index_tts_synthesize_emotion` handler, `POST /api/index-tts/synthesize-emotion`
(app.py lines 331-426).  Note: the text has no 5000-character check here, and
the speaker upload is staged before the emotion mode is examined. -/
def index_tts_synthesize_emotion (conv : IndexTTSConverter)
    (mb : BackendCall → Option String) (fs : FS) (req : EmotionRequest) : HttpOut :=
  match req.textForm, req.speakerFile with
  | none, _ => ⟨400, fs, [], []⟩
  | some _, none => ⟨400, fs, [], []⟩
  | some text, some speaker_file =>
    if stripEmpty text then ⟨400, fs, [], []⟩
    else if pyFalsy speaker_file.filename then ⟨400, fs, [], []⟩
    else if ! allowed_file speaker_file.filename then ⟨400, fs, [], []⟩
    else
      let spk_path := joinPath UPLOAD_FOLDER ("spk_" ++ secure_filename speaker_file.filename)
      let fs1 := fsSave fs spk_path speaker_file.contentSize
      let output_path := joinPath UPLOAD_FOLDER "output_emotion.wav"
      if ! conv.is_model_available then ⟨503, fs1, [], [spk_path]⟩
      else
        match req.emotion_mode == "audio", req.emotionAudioFile with
        | true, some emotion_file =>
            emotionAudioBranch conv mb fs1 text spk_path output_path
              emotion_file req.emotion_intensity
        | _, _ =>
          match req.emotion_mode == "vector", req.emotionVectorForm with
          | true, some vec =>
              emotionVectorBranch conv mb fs1 text spk_path output_path vec
          | _, _ => emotionCloneBranch conv mb fs1 text spk_path output_path

/-- `coqui_synthesize` handler, `POST /api/coqui/synthesize` (app.py lines
486-522).  Only `if not text` is checked: no trim, no length bound.
`randOut` is the `os.urandom(8).hex()` value drawn for the output name. -/
def coqui_synthesize (conv : CoquiTTSConverter)
    (mb : BackendCall → Option String) (fs : FS)
    (textForm : Option String) (language : String) (randOut : String) : HttpOut :=
  match textForm with
  | none => ⟨400, fs, [], []⟩
  | some text =>
    if pyFalsy text then ⟨400, fs, [], []⟩
    else if ! conv.is_model_available then ⟨503, fs, [], []⟩
    else
      let output_path := joinPath UPLOAD_FOLDER ("coqui_output_" ++ randOut ++ ".wav")
      let m := CoquiTTSConverter.synthesize conv mb fs text output_path language
      match m.result with
      | .error _ => ⟨500, m.fsAfter, m.calls, []⟩
      | .ok _ => ⟨200, m.fsAfter, m.calls, []⟩

/-- `coqui_clone_voice` handler, `POST /api/coqui/clone-voice` (app.py lines
525-581).  The speaker upload is staged to `speaker_<random hex>.wav`;
cleanup happens only on the success path (guarded by an existence test). -/
def coqui_clone_voice (conv : CoquiTTSConverter)
    (mb : BackendCall → Option String) (fs : FS)
    (textForm : Option String) (language : String)
    (speakerFile : Option UploadedFile) (randSpk randOut : String) : HttpOut :=
  match textForm with
  | none => ⟨400, fs, [], []⟩
  | some text =>
    if pyFalsy text then ⟨400, fs, [], []⟩
    else
      match speakerFile with
      | none => ⟨400, fs, [], []⟩
      | some speaker_file =>
        if pyFalsy speaker_file.filename then ⟨400, fs, [], []⟩
        else if ! allowed_file speaker_file.filename then ⟨400, fs, [], []⟩
        else
          let speaker_path := joinPath UPLOAD_FOLDER
            (secure_filename ("speaker_" ++ randSpk ++ ".wav"))
          let fs1 := fsSave fs speaker_path speaker_file.contentSize
          if ! conv.is_model_available then ⟨503, fs1, [], [speaker_path]⟩
          else
            let output_path := joinPath UPLOAD_FOLDER ("coqui_cloned_" ++ randOut ++ ".wav")
            let m := CoquiTTSConverter.clone_voice conv mb fs1 text speaker_path
                        output_path language
            match m.result with
            | .error _ => ⟨500, m.fsAfter, m.calls, [speaker_path]⟩
            | .ok _ =>
              let fs2 := if pathExists m.fsAfter speaker_path
                         then fsRemove m.fsAfter speaker_path else m.fsAfter
              ⟨200, fs2, m.calls, [speaker_path]⟩

/-- `coqui_convert_voice` handler, `POST /api/coqui/convert-voice` (app.py
lines 584-647). -/
def coqui_convert_voice (conv : CoquiTTSConverter)
    (mb : BackendCall → Option String) (fs : FS)
    (sourceFile targetFile : Option UploadedFile)
    (randSrc randTgt randOut : String) : HttpOut :=
  match sourceFile with
  | none => ⟨400, fs, [], []⟩
  | some source_file =>
    if pyFalsy source_file.filename then ⟨400, fs, [], []⟩
    else
      match targetFile with
      | none => ⟨400, fs, [], []⟩
      | some target_file =>
        if pyFalsy target_file.filename then ⟨400, fs, [], []⟩
        else if ! allowed_file source_file.filename || ! allowed_file target_file.filename then
          ⟨400, fs, [], []⟩
        else
          let source_path := joinPath UPLOAD_FOLDER
            (secure_filename ("source_" ++ randSrc ++ ".wav"))
          let fs1 := fsSave fs source_path source_file.contentSize
          let target_path := joinPath UPLOAD_FOLDER
            (secure_filename ("target_" ++ randTgt ++ ".wav"))
          let fs2 := fsSave fs1 target_path target_file.contentSize
          if ! conv.is_model_available then ⟨503, fs2, [], [source_path, target_path]⟩
          else
            let output_path := joinPath UPLOAD_FOLDER ("coqui_converted_" ++ randOut ++ ".wav")
            let m := CoquiTTSConverter.convert_voice conv mb fs2
                        source_path target_path output_path
            match m.result with
            | .error _ => ⟨500, m.fsAfter, m.calls, [source_path, target_path]⟩
            | .ok _ =>
              let fs3 := if pathExists m.fsAfter source_path
                         then fsRemove m.fsAfter source_path else m.fsAfter
              let fs4 := if pathExists fs3 target_path
                         then fsRemove fs3 target_path else fs3
              ⟨200, fs4, m.calls, [source_path, target_path]⟩

/-- Outcome of `IndexTTSConverter._initialize_model`: it either returns or
raises; `__init__` (index_tts_converter.py lines 36-44) catches the raise and
records `is_available = False` without propagating. -/
inductive InitOutcome where
  | success
  | failure (msg : String)
deriving DecidableEq, Repr

/-- `IndexTTSConverter.__init__`: total — a construction failure is caught
and recorded, never propagated. -/
def IndexTTSConverter.construct (io : InitOutcome) : IndexTTSConverter :=
  match io with
  | .success => ⟨true⟩
  | .failure _ => ⟨false⟩

/-- `get_index_tts_converter` (app.py lines 49-56) acting on the module-level
singleton: returns the converter, the new singleton value, and whether a
construction was attempted by this call. -/
def get_index_tts_converter (g : Option IndexTTSConverter) (io : InitOutcome) :
    IndexTTSConverter × Option IndexTTSConverter × Bool :=
  match g with
  | some c => (c, some c, false)
  | none =>
    let c := IndexTTSConverter.construct io
    (c, some c, true)

/-- Number of construction attempts over a sequence of `n` calls to
`get_index_tts_converter`, starting from singleton state `g`. -/
def constructionAttempts (io : InitOutcome) : Nat → Option IndexTTSConverter → Nat
  | 0, _ => 0
  | n + 1, g =>
    let r := get_index_tts_converter g io
    (if r.2.2 then 1 else 0) + constructionAttempts io n r.2.1

/-- `CoquiTTSConverter.__init__` (coqui_tts_converter.py lines 21-42): total —
`model_name` is recorded, `_initialize_model` is wrapped in try/except and a
failure is recorded as `is_available = False`, never propagated. -/
def CoquiTTSConverter.construct (io : InitOutcome) (model_name : String) :
    CoquiTTSConverter :=
  match io with
  | .success => ⟨true, model_name⟩
  | .failure _ => ⟨false, model_name⟩

/-- `get_coqui_tts_converter` (app.py lines 59-66) acting on the module-level
singleton: constructs `CoquiTTSConverter()` with the default model name on
first use only. -/
def get_coqui_tts_converter (g : Option CoquiTTSConverter) (io : InitOutcome) :
    CoquiTTSConverter × Option CoquiTTSConverter × Bool :=
  match g with
  | some c => (c, some c, false)
  | none =>
    let c := CoquiTTSConverter.construct io XTTS_V2
    (c, some c, true)

/-- Number of construction attempts over a sequence of `n` calls to
`get_coqui_tts_converter`, starting from singleton state `g`. -/
def coquiConstructionAttempts (io : InitOutcome) :
    Nat → Option CoquiTTSConverter → Nat
  | 0, _ => 0
  | n + 1, g =>
    let r := get_coqui_tts_converter g io
    (if r.2.2 then 1 else 0) + coquiConstructionAttempts io n r.2.1

/-- The static fallback voice list of `VoiceConverter._load_voices`
(voice_converter.py lines 55-59). -/
def FALLBACK_VOICES : List String :=
  ["en-US-AriaNeural", "en-US-GuyNeural", "en-GB-SoniaNeural"]

/-- `VoiceConverter.__init__` (voice_converter.py lines 21-59): total —
`_load_voices` catches any loading exception and falls back to the static
voice list, never propagating. -/
def VoiceConverter.construct (io : InitOutcome) (voices : List String) :
    VoiceConverter :=
  match io with
  | .success => ⟨voices⟩
  | .failure _ => ⟨FALLBACK_VOICES⟩

/-- `get_voice_converter` (app.py lines 39-46) acting on the module-level
singleton. -/
def get_voice_converter (g : Option VoiceConverter) (io : InitOutcome)
    (voices : List String) : VoiceConverter × Option VoiceConverter × Bool :=
  match g with
  | some c => (c, some c, false)
  | none =>
    let c := VoiceConverter.construct io voices
    (c, some c, true)

/-- Number of construction attempts over a sequence of `n` calls to
`get_voice_converter`, starting from singleton state `g`. -/
def edgeConstructionAttempts (io : InitOutcome) (voices : List String) :
    Nat → Option VoiceConverter → Nat
  | 0, _ => 0
  | n + 1, g =>
    let r := get_voice_converter g io voices
    (if r.2.2 then 1 else 0) + edgeConstructionAttempts io voices n r.2.1

/-! ## Helper lemmas about the filesystem and path model -/

theorem pathExists_fsSave_self (fs : FS) (p : String) (sz : Nat) :
    pathExists (fsSave fs p sz) p = true := by
  simp [pathExists, fsSave]

theorem pathExists_fsRemove_self (fs : FS) (p : String) :
    pathExists (fsRemove fs p) p = false := by
  induction fs with
  | nil => rfl
  | cons e t ih =>
    simp only [fsRemove, List.filter_cons] at ih ⊢
    by_cases h : e.1 == p
    · simp [h, ih]
    · simp only [Bool.not_eq_true] at h
      simp [pathExists, h, ih]

theorem pathExists_fsRemove_false (fs : FS) (p q : String)
    (h : pathExists fs p = false) : pathExists (fsRemove fs q) p = false := by
  induction fs with
  | nil => rfl
  | cons e t ih =>
    simp only [pathExists, List.any_cons, Bool.or_eq_false_iff] at h
    simp only [fsRemove, List.filter_cons] at ih ⊢
    by_cases hq : ! (e.1 == q)
    · simp only [hq, if_true]
      simpa [pathExists, h.1] using ih h.2
    · simp only [hq, if_false]
      exact ih h.2

theorem strData_append (s t : String) : (s ++ t).data = s.data ++ t.data := by
  cases s; cases t; rfl

theorem strEq_of_data {s t : String} (h : s.data = t.data) : s = t := by
  cases s; cases t; exact congrArg String.mk (by simpa using h)

theorem secure_filename_eq_self (s : String)
    (h : s.data.all keepChar = true) : secure_filename s = s := by
  have hall : ∀ a ∈ s.data, keepChar a = true := by
    simpa [List.all_eq_true] using h
  have : s.data.filter keepChar = s.data := List.filter_eq_self.mpr hall
  cases s
  simp [secure_filename, this]

theorem joinPath_right_inj {d f g : String} (h : joinPath d f = joinPath d g) :
    f = g := by
  have h2 : ((d ++ "/") ++ f).data = ((d ++ "/") ++ g).data := by
    simpa [joinPath, String.append_assoc] using congrArg String.data h
  rw [strData_append, strData_append] at h2
  exact strEq_of_data (List.append_cancel_left h2)

theorem fileSize_fsSave_self (fs : FS) (p : String) (sz : Nat) :
    fileSize (fsSave fs p sz) p = sz := by
  simp [fileSize, fsSave]

/-- A model runtime on which every call returns normally. -/
def mbOk : BackendCall → Option String := fun _ => none

/-- A model runtime on which every call raises. -/
def mbFail : BackendCall → Option String := fun _ => some "model error"

/-! ## C6: intensity parameters are clamped into [0, 1], never rejected -/

/-- C6: every numeric intensity parameter is clamped rather than rejected:
the intensity handed to the Index-TTS2 model is `clampQ v = max 0 (min 1 v)`,
each element of a length-8 emotion vector is likewise clamped element-wise,
and `clampQ` fixes 0 and 1 and always lands in `[0, 1]`. -/
theorem C6_intensity_clamped (c : IndexTTSConverter)
    (mb : BackendCall → Option String) (fs : FS)
    (text spk emo out : String) (i : ℚ) (vec : List ℚ) (ur : Bool)
    (hav : c.is_available = true)
    (hspk : pathExists fs spk = true) (hemo : pathExists fs emo = true)
    (hlen : vec.length = 8) :
    (IndexTTSConverter.synthesize_with_emotion_audio c mb fs text spk emo out i).calls
      = [BackendCall.indexInfer spk text out (some emo) (some (clampQ i)) none false] ∧
    (IndexTTSConverter.synthesize_with_emotion_vector c mb fs text spk vec out ur).calls
      = [BackendCall.indexInfer spk text out none none (some (vec.map clampQ)) ur] ∧
    (∀ v : ℚ, clampQ v = max 0 (min 1 v)) ∧
    clampQ 0 = 0 ∧ clampQ 1 = 1 ∧ (∀ v : ℚ, 0 ≤ clampQ v ∧ clampQ v ≤ 1) := by
  refine ⟨?_, ?_, fun v => rfl, ?_, ?_, ?_⟩
  · unfold IndexTTSConverter.synthesize_with_emotion_audio
    simp only [hav, hspk, hemo, Bool.not_true, Bool.false_eq_true, if_false]
    cases mb (.indexInfer spk text out (some emo) (some (clampQ i)) none false) <;> rfl
  · unfold IndexTTSConverter.synthesize_with_emotion_vector
    simp only [hav, hspk, hlen, Bool.not_true, Bool.false_eq_true, if_false,
      ne_eq, not_true_eq_false]
    cases mb (.indexInfer spk text out none none (some (vec.map clampQ)) ur) <;> rfl
  · simp [clampQ]
  · simp [clampQ]
  · intro v
    exact ⟨le_max_left 0 _, max_le (by norm_num) (min_le_left 1 v)⟩

/-- Witness for C6 at a concrete input: an out-of-range intensity 2 is
clamped, and a length-8 vector with out-of-range entries is clamped
element-wise. -/
theorem C6_witness :
    (IndexTTSConverter.synthesize_with_emotion_audio ⟨true⟩ mbOk
        [("s.wav", 20000), ("e.wav", 20000)] "hi" "s.wav" "e.wav" "o.wav" 2).calls
      = [BackendCall.indexInfer "s.wav" "hi" "o.wav" (some "e.wav")
          (some (clampQ 2)) none false] ∧
    (IndexTTSConverter.synthesize_with_emotion_vector ⟨true⟩ mbOk
        [("s.wav", 20000), ("e.wav", 20000)] "hi" "s.wav" [0, 1, 2, -3, 0, 0, 0, 0]
        "o.wav" false).calls
      = [BackendCall.indexInfer "s.wav" "hi" "o.wav" none none
          (some (([0, 1, 2, -3, 0, 0, 0, 0] : List ℚ).map clampQ)) false] ∧
    clampQ 2 = 1 ∧ ([0, 1, 2, -3, 0, 0, 0, 0] : List ℚ).map clampQ = [0, 1, 1, 0, 0, 0, 0, 0] := by
  have h := C6_intensity_clamped ⟨true⟩ mbOk [("s.wav", 20000), ("e.wav", 20000)]
    "hi" "s.wav" "e.wav" "o.wav" 2 [0, 1, 2, -3, 0, 0, 0, 0] false
    rfl (by decide) (by decide) (by decide)
  refine ⟨h.1, h.2.1, by norm_num [clampQ], by norm_num [clampQ]⟩

/-! ## C7: unavailable backends fail with EngineUnavailable, no model call -/

/-- C7: on any backend instance whose `is_model_available()` is false, every
synthesis-family method (clone, emotion-by-audio, emotion-by-vector on
Index-TTS2; basic synthesis, clone, voice conversion on Coqui) returns the
EngineUnavailable error with no backend invocation, no filesystem change,
and no inline initialization (the methods never construct a model). -/
theorem C7_engine_unavailable (ci : IndexTTSConverter) (cc : CoquiTTSConverter)
    (mb : BackendCall → Option String) (fs : FS)
    (text ref spk emo out lang src tgt : String) (i : ℚ) (vec : List ℚ) (ur : Bool)
    (hci : ci.is_model_available = false) (hcc : cc.is_model_available = false) :
    IndexTTSConverter.clone_voice ci mb fs text ref out
      = ⟨.error .engineUnavailable, fs, []⟩ ∧
    IndexTTSConverter.synthesize_with_emotion_audio ci mb fs text spk emo out i
      = ⟨.error .engineUnavailable, fs, []⟩ ∧
    IndexTTSConverter.synthesize_with_emotion_vector ci mb fs text spk vec out ur
      = ⟨.error .engineUnavailable, fs, []⟩ ∧
    CoquiTTSConverter.synthesize cc mb fs text out lang
      = ⟨.error .engineUnavailable, fs, []⟩ ∧
    CoquiTTSConverter.clone_voice cc mb fs text spk out lang
      = ⟨.error .engineUnavailable, fs, []⟩ ∧
    CoquiTTSConverter.convert_voice cc mb fs src tgt out
      = ⟨.error .engineUnavailable, fs, []⟩ := by
  have h1 : ci.is_available = false := hci
  have h2 : cc.is_available = false := hcc
  refine ⟨?_, ?_, ?_, ?_, ?_, ?_⟩ <;>
    simp [IndexTTSConverter.clone_voice, IndexTTSConverter.synthesize_with_emotion_audio,
      IndexTTSConverter.synthesize_with_emotion_vector, CoquiTTSConverter.synthesize,
      CoquiTTSConverter.clone_voice, CoquiTTSConverter.convert_voice, h1, h2]

/-- Witness for C7: both unavailable converters at concrete arguments. -/
theorem C7_witness :
    IndexTTSConverter.clone_voice ⟨false⟩ mbOk [("r.wav", 20000)] "hi" "r.wav" "o.wav"
      = ⟨.error .engineUnavailable, [("r.wav", 20000)], []⟩ ∧
    CoquiTTSConverter.convert_voice ⟨false, XTTS_V2⟩ mbOk [("r.wav", 20000)]
        "r.wav" "r.wav" "o.wav"
      = ⟨.error .engineUnavailable, [("r.wav", 20000)], []⟩ := by
  have h := C7_engine_unavailable ⟨false⟩ ⟨false, XTTS_V2⟩ mbOk [("r.wav", 20000)]
    "hi" "r.wav" "r.wav" "r.wav" "o.wav" "en" "r.wav" "r.wav" 1 [] false rfl rfl
  exact ⟨h.1, h.2.2.2.2.2⟩

/-! ## C10: the conversion fallback is independent of the source audio -/

/-- C10: when the Coqui model name does not contain `voice_conversion`
(true of the default XTTS v2 name), `convert_voice` — after checking that
both inputs exist — invokes only the TTS fallback with empty text and the
target audio as speaker reference; the whole outcome is therefore identical
for two calls differing only in the source audio file. -/
theorem C10_conversion_source_independent (cc : CoquiTTSConverter)
    (mb : BackendCall → Option String) (fs : FS) (src1 src2 tgt out : String)
    (hav : cc.is_available = true)
    (hname : strContainsSub cc.model_name "voice_conversion" = false)
    (h1 : pathExists fs src1 = true) (h2 : pathExists fs src2 = true)
    (ht : pathExists fs tgt = true) :
    (CoquiTTSConverter.convert_voice cc mb fs src1 tgt out).calls
      = [BackendCall.coquiTtsWithVc "" tgt out] ∧
    CoquiTTSConverter.convert_voice cc mb fs src1 tgt out
      = CoquiTTSConverter.convert_voice cc mb fs src2 tgt out ∧
    strContainsSub XTTS_V2 "voice_conversion" = false := by
  refine ⟨?_, ?_, by decide⟩
  · unfold CoquiTTSConverter.convert_voice
    simp only [hav, h1, ht, hname, Bool.not_true, Bool.false_eq_true, if_false,
      Bool.not_false, if_true]
    cases mb (.coquiTtsWithVc "" tgt out) <;> rfl
  · unfold CoquiTTSConverter.convert_voice
    simp only [hav, h1, h2, ht, hname, Bool.not_true, Bool.false_eq_true, if_false,
      Bool.not_false, if_true]

/-- Witness for C10: two source files with different contents, same target:
identical backend invocation. -/
theorem C10_witness :
    (CoquiTTSConverter.convert_voice ⟨true, XTTS_V2⟩ mbOk
        [("s1.wav", 111), ("s2.wav", 222), ("t.wav", 333)] "s1.wav" "t.wav" "o.wav").calls
      = [BackendCall.coquiTtsWithVc "" "t.wav" "o.wav"] ∧
    CoquiTTSConverter.convert_voice ⟨true, XTTS_V2⟩ mbOk
        [("s1.wav", 111), ("s2.wav", 222), ("t.wav", 333)] "s1.wav" "t.wav" "o.wav"
      = CoquiTTSConverter.convert_voice ⟨true, XTTS_V2⟩ mbOk
        [("s1.wav", 111), ("s2.wav", 222), ("t.wav", 333)] "s2.wav" "t.wav" "o.wav" := by
  have h := C10_conversion_source_independent ⟨true, XTTS_V2⟩ mbOk
    [("s1.wav", 111), ("s2.wav", 222), ("t.wav", 333)] "s1.wav" "s2.wav" "t.wav" "o.wav"
    rfl (by decide) (by decide) (by decide) (by decide)
  exact ⟨h.1, h.2.1⟩

/-! ## C8: missing referenced inputs and ReferenceNotFound -/

/-- C8 counterexample: a clone-voice call on an unavailable backend whose
reference path does not exist at call time fails with EngineUnavailable,
not with a ReferenceNotFound error naming that path — so the universal
statement of the claim is false as written. -/
theorem C8_counterexample :
    (IndexTTSConverter.clone_voice ⟨false⟩ mbOk [] "hello" "missing.wav" "out.wav").result
      = .error .engineUnavailable ∧
    pathExists ([] : FS) "missing.wav" = false ∧
    TTSError.engineUnavailable ≠ TTSError.referenceNotFound "missing.wav" := by
  exact ⟨rfl, rfl, by decide⟩

/-- C8 amended: on a backend whose model is available, every mutating
operation checks the existence of each referenced input file before invoking
the model; a call with a missing referenced file raises FileNotFoundError
identifying the first missing path in the check order of the operation
(reference; speaker then emotion; speaker; source then target), with no
backend invocation and no filesystem change. -/
theorem C8_reference_checked (ci : IndexTTSConverter) (cc : CoquiTTSConverter)
    (mb : BackendCall → Option String) (fs : FS)
    (text ref spk emo out lang src tgt : String) (i : ℚ) (vec : List ℚ) (ur : Bool)
    (hia : ci.is_available = true) (hca : cc.is_available = true) :
    (pathExists fs ref = false →
      IndexTTSConverter.clone_voice ci mb fs text ref out
        = ⟨.error (.referenceNotFound ref), fs, []⟩) ∧
    (pathExists fs spk = false →
      IndexTTSConverter.synthesize_with_emotion_audio ci mb fs text spk emo out i
        = ⟨.error (.referenceNotFound spk), fs, []⟩) ∧
    (pathExists fs spk = true → pathExists fs emo = false →
      IndexTTSConverter.synthesize_with_emotion_audio ci mb fs text spk emo out i
        = ⟨.error (.referenceNotFound emo), fs, []⟩) ∧
    (pathExists fs spk = false →
      IndexTTSConverter.synthesize_with_emotion_vector ci mb fs text spk vec out ur
        = ⟨.error (.referenceNotFound spk), fs, []⟩) ∧
    (pathExists fs spk = false →
      CoquiTTSConverter.clone_voice cc mb fs text spk out lang
        = ⟨.error (.referenceNotFound spk), fs, []⟩) ∧
    (pathExists fs src = false →
      CoquiTTSConverter.convert_voice cc mb fs src tgt out
        = ⟨.error (.referenceNotFound src), fs, []⟩) ∧
    (pathExists fs src = true → pathExists fs tgt = false →
      CoquiTTSConverter.convert_voice cc mb fs src tgt out
        = ⟨.error (.referenceNotFound tgt), fs, []⟩) := by
  refine ⟨fun h => ?_, fun h => ?_, fun h h' => ?_, fun h => ?_, fun h => ?_,
    fun h => ?_, fun h h' => ?_⟩ <;>
    simp_all [IndexTTSConverter.clone_voice, IndexTTSConverter.synthesize_with_emotion_audio,
      IndexTTSConverter.synthesize_with_emotion_vector, CoquiTTSConverter.clone_voice,
      CoquiTTSConverter.convert_voice]

/-- Witness for the amended C8 statement at concrete inputs: the missing
reference of an Index-TTS clone, and the missing target of a Coqui
conversion whose source exists. -/
theorem C8_witness :
    IndexTTSConverter.clone_voice ⟨true⟩ mbOk [] "hello" "missing.wav" "out.wav"
      = ⟨.error (.referenceNotFound "missing.wav"), [], []⟩ ∧
    CoquiTTSConverter.convert_voice ⟨true, XTTS_V2⟩ mbOk [("src.wav", 20000)]
        "src.wav" "gone.wav" "out.wav"
      = ⟨.error (.referenceNotFound "gone.wav"), [("src.wav", 20000)], []⟩ := by
  have h := C8_reference_checked ⟨true⟩ ⟨true, XTTS_V2⟩ mbOk [("src.wav", 20000)]
    "hello" "missing.wav" "spk.wav" "emo.wav" "out.wav" "en" "src.wav" "gone.wav"
    1 [] false rfl rfl
  exact ⟨by
    have h2 := C8_reference_checked ⟨true⟩ ⟨true, XTTS_V2⟩ mbOk ([] : FS)
      "hello" "missing.wav" "spk.wav" "emo.wav" "out.wav" "en" "src.wav" "gone.wav"
      1 [] false rfl rfl
    exact h2.1 (by decide), h.2.2.2.2.2.2 (by decide) (by decide)⟩

/-! ## C5: emotion vectors of length different from 8 -/

/-- C5 counterexample: a length-7 emotion-vector call whose speaker audio
does not exist fails with the speaker FileNotFoundError, not with
InvalidDimension — the existence check (a filesystem access) precedes the
dimension check, so the universal statement of the claim is false as written. -/
theorem C5_counterexample :
    ([0, 0, 0, 0, 0, 0, 0] : List ℚ).length ≠ 8 ∧
    (IndexTTSConverter.synthesize_with_emotion_vector ⟨true⟩ mbOk []
        "hi" "spk.wav" [0, 0, 0, 0, 0, 0, 0] "out.wav" false).result
      = .error (.referenceNotFound "spk.wav") ∧
    TTSError.referenceNotFound "spk.wav" ≠ TTSError.invalidDimension := by
  exact ⟨by decide, rfl, by decide⟩

/-- C5 amended: on an available backend whose speaker audio exists, an
emotion vector with length different from 8 fails with InvalidDimension and
the model is never invoked; the check runs after the availability and
speaker-existence checks, and at the endpoint the speaker upload has already
been staged to disk (and remains staged) when the vector is rejected. -/
theorem C5_invalid_dimension (c : IndexTTSConverter)
    (mb : BackendCall → Option String) (fs : FS) (text spk out : String)
    (vec : List ℚ) (ur : Bool) (sf : UploadedFile)
    (hav : c.is_available = true) (hspk : pathExists fs spk = true)
    (hlen : vec.length ≠ 8)
    (hstrip : stripEmpty text = false) (hff : pyFalsy sf.filename = false)
    (hal : allowed_file sf.filename = true) :
    IndexTTSConverter.synthesize_with_emotion_vector c mb fs text spk vec out ur
      = ⟨.error .invalidDimension, fs, []⟩ ∧
    (index_tts_synthesize_emotion ⟨true⟩ mb fs
        ⟨some text, some sf, "vector", none, some vec, 1⟩).status = 500 ∧
    pathExists (index_tts_synthesize_emotion ⟨true⟩ mb fs
        ⟨some text, some sf, "vector", none, some vec, 1⟩).fsAfter
      (joinPath UPLOAD_FOLDER ("spk_" ++ secure_filename sf.filename)) = true ∧
    (index_tts_synthesize_emotion ⟨true⟩ mb fs
        ⟨some text, some sf, "vector", none, some vec, 1⟩).calls = [] := by
  refine ⟨?_, ?_, ?_, ?_⟩
  · simp [IndexTTSConverter.synthesize_with_emotion_vector, hav, hspk, hlen]
  all_goals
    simp [index_tts_synthesize_emotion, hstrip, hff, hal,
      IndexTTSConverter.is_model_available, emotionVectorBranch,
      IndexTTSConverter.synthesize_with_emotion_vector,
      pathExists_fsSave_self, hlen]

/-- Witness for the amended C5 statement: a length-7 vector on an available
backend with an existing speaker file is rejected as InvalidDimension, and
the endpoint leaves the staged speaker upload behind with a 500 and no
backend call. -/
theorem C5_witness :
    IndexTTSConverter.synthesize_with_emotion_vector ⟨true⟩ mbOk [("spk.wav", 20000)]
        "hi" "spk.wav" [0, 0, 0, 0, 0, 0, 0] "out.wav" false
      = ⟨.error .invalidDimension, [("spk.wav", 20000)], []⟩ ∧
    (index_tts_synthesize_emotion ⟨true⟩ mbOk [("spk.wav", 20000)]
        ⟨some "hi", some ⟨"s.wav", 20000⟩, "vector", none,
          some [0, 0, 0, 0, 0, 0, 0], 1⟩).status = 500 ∧
    pathExists (index_tts_synthesize_emotion ⟨true⟩ mbOk [("spk.wav", 20000)]
        ⟨some "hi", some ⟨"s.wav", 20000⟩, "vector", none,
          some [0, 0, 0, 0, 0, 0, 0], 1⟩).fsAfter
      (joinPath UPLOAD_FOLDER ("spk_" ++ secure_filename "s.wav")) = true ∧
    (index_tts_synthesize_emotion ⟨true⟩ mbOk [("spk.wav", 20000)]
        ⟨some "hi", some ⟨"s.wav", 20000⟩, "vector", none,
          some [0, 0, 0, 0, 0, 0, 0], 1⟩).calls = [] :=
  C5_invalid_dimension ⟨true⟩ mbOk [("spk.wav", 20000)] "hi" "spk.wav" "out.wav"
    [0, 0, 0, 0, 0, 0, 0] false ⟨"s.wav", 20000⟩
    rfl (by decide) (by decide) (by decide) (by decide) (by decide)

/-! ## C9: backend construction at most once per process lifetime -/

theorem constructionAttempts_some (io : InitOutcome) (n : Nat) (c : IndexTTSConverter) :
    constructionAttempts io n (some c) = 0 := by
  induction n with
  | zero => rfl
  | succ m ih => simpa [constructionAttempts, get_index_tts_converter] using ih

theorem coquiConstructionAttempts_some (io : InitOutcome) (n : Nat)
    (c : CoquiTTSConverter) : coquiConstructionAttempts io n (some c) = 0 := by
  induction n with
  | zero => rfl
  | succ m ih => simpa [coquiConstructionAttempts, get_coqui_tts_converter] using ih

theorem edgeConstructionAttempts_some (io : InitOutcome) (voices : List String)
    (n : Nat) (c : VoiceConverter) :
    edgeConstructionAttempts io voices n (some c) = 0 := by
  induction n with
  | zero => rfl
  | succ m ih => simpa [edgeConstructionAttempts, get_voice_converter] using ih

/-- C9: for each backend, over any sequence of calls in one process, model
construction is attempted exactly once (on first use); a construction
failure is caught and recorded by a normally-returning constructor — it
never propagates (`is_available = false` for the Index-TTS and Coqui
backends, the static fallback voice list for the Edge backend);
`is_model_available` only reads the recorded flag; and once a singleton is
set, its getter returns it without a new attempt. -/
theorem C9_construct_once (io : InitOutcome) (msg : String) (n : Nat)
    (c : IndexTTSConverter) (cq : CoquiTTSConverter) (cv : VoiceConverter)
    (voices : List String) (hn : 1 ≤ n) :
    constructionAttempts io n none = 1 ∧
    constructionAttempts io n (some c) = 0 ∧
    (IndexTTSConverter.construct (.failure msg)).is_model_available = false ∧
    (IndexTTSConverter.construct .success).is_model_available = true ∧
    IndexTTSConverter.is_model_available c = c.is_available ∧
    get_index_tts_converter (some c) io = (c, some c, false) ∧
    coquiConstructionAttempts io n none = 1 ∧
    coquiConstructionAttempts io n (some cq) = 0 ∧
    (CoquiTTSConverter.construct (.failure msg) XTTS_V2).is_model_available = false ∧
    (CoquiTTSConverter.construct .success XTTS_V2).is_model_available = true ∧
    CoquiTTSConverter.is_model_available cq = cq.is_available ∧
    get_coqui_tts_converter (some cq) io = (cq, some cq, false) ∧
    edgeConstructionAttempts io voices n none = 1 ∧
    edgeConstructionAttempts io voices n (some cv) = 0 ∧
    (VoiceConverter.construct (.failure msg) voices).available_voices = FALLBACK_VOICES ∧
    (VoiceConverter.construct .success voices).available_voices = voices ∧
    get_voice_converter (some cv) io voices = (cv, some cv, false) := by
  obtain ⟨m, rfl⟩ : ∃ m, n = m + 1 := ⟨n - 1, by omega⟩
  refine ⟨?_, constructionAttempts_some io (m + 1) c, rfl, rfl, rfl, rfl,
    ?_, coquiConstructionAttempts_some io (m + 1) cq, rfl, rfl, rfl, rfl,
    ?_, edgeConstructionAttempts_some io voices (m + 1) cv, rfl, rfl, rfl⟩
  · simp [constructionAttempts, get_index_tts_converter, constructionAttempts_some]
  · simp [coquiConstructionAttempts, get_coqui_tts_converter,
      coquiConstructionAttempts_some]
  · simp [edgeConstructionAttempts, get_voice_converter,
      edgeConstructionAttempts_some]

/-- Witness for C9: two successive uses after a failed construction of each
backend — exactly one attempt per backend, availability reading false on the
two flagged backends and the Edge backend holding the fallback voices. -/
theorem C9_witness :
    constructionAttempts (.failure "import error") 2 none = 1 ∧
    (IndexTTSConverter.construct (.failure "import error")).is_model_available = false ∧
    coquiConstructionAttempts (.failure "import error") 2 none = 1 ∧
    (CoquiTTSConverter.construct (.failure "import error") XTTS_V2).is_model_available
      = false ∧
    edgeConstructionAttempts (.failure "import error") ["x"] 2 none = 1 ∧
    (VoiceConverter.construct (.failure "import error") ["x"]).available_voices
      = FALLBACK_VOICES := by
  have h := C9_construct_once (.failure "import error") "import error" 2 ⟨false⟩
    ⟨false, XTTS_V2⟩ ⟨["x"]⟩ ["x"] (by norm_num)
  exact ⟨h.1, h.2.2.1, h.2.2.2.2.2.2.1, h.2.2.2.2.2.2.2.2.1,
    h.2.2.2.2.2.2.2.2.2.2.2.2.1, h.2.2.2.2.2.2.2.2.2.2.2.2.2.2.1⟩

/-! ## C3: audio validation -/

/-- C3 counterexample: the validate-audio endpoint invokes the Edge-TTS
`validate_audio_file`, which has no size bounds: a 5000-byte (5 KB) upload
comes back `valid: true` with no `recommended` and no `error` field, so
"every existing file smaller than 10 KB is rejected as too small" is false
for the operation this endpoint invokes. -/
theorem C3_counterexample :
    (validate_audio [] (some ⟨"a.wav", 5000⟩)).validation
      = some ⟨true, some 5000, some "/tmp/temp_a.wav", none, none⟩ ∧
    5000 < 10000 := by
  exact ⟨rfl, by norm_num⟩

/-- C3 amended: the endpoint checks the extension allow-list and then calls
`VoiceConverter.validate_audio_file`, which checks existence only — every
staged upload, of any size, yields `{valid: true, size, path}` with no
`recommended` and no `error` field, returned as a structured value.  The
10 KB / 50 MB bounds and the `recommended` flag live in
`IndexTTSConverter.validate_audio_file` and
`CoquiTTSConverter.validate_audio_file`, which this endpoint never invokes:
there, an existing file under 10000 bytes is rejected as too small, one over
50 MB as too large, and a 2 MB file yields `valid: true, recommended: true`. -/
theorem C3_validation (fs : FS) (f : UploadedFile) (p : String)
    (hff : pyFalsy f.filename = false) (hal : allowed_file f.filename = true)
    (hex : pathExists fs p = true) :
    (validate_audio fs (some f)).validation
      = some ⟨true, some f.contentSize,
          some (joinPath UPLOAD_FOLDER ("temp_" ++ secure_filename f.filename)),
          none, none⟩ ∧
    (fileSize fs p < 10000 →
      IndexTTSConverter.validate_audio_file fs p
        = ⟨false, none, none, none,
            some "Audio file too small (minimum 3 seconds recommended)"⟩) ∧
    (fileSize fs p > 50 * 1024 * 1024 →
      IndexTTSConverter.validate_audio_file fs p
        = ⟨false, none, none, none, some "Audio file too large (maximum 50MB)"⟩) ∧
    (¬ fileSize fs p < 10000 → ¬ fileSize fs p > 50 * 1024 * 1024 →
      IndexTTSConverter.validate_audio_file fs p
        = ⟨true, some (fileSize fs p), some p,
            some (decide (10000 < fileSize fs p ∧ fileSize fs p < 5000000)), none⟩) ∧
    CoquiTTSConverter.validate_audio_file fs p = IndexTTSConverter.validate_audio_file fs p ∧
    IndexTTSConverter.validate_audio_file [("ref.wav", 2097152)] "ref.wav"
      = ⟨true, some 2097152, some "ref.wav", some true, none⟩ := by
  refine ⟨?_, ?_, ?_, ?_, ?_, by decide⟩
  · simp [validate_audio, hff, hal, VoiceConverter.validate_audio_file,
      pathExists_fsSave_self, fileSize_fsSave_self]
  · intro h
    simp [IndexTTSConverter.validate_audio_file, hex, h]
  · intro h
    have hge : ¬ fileSize fs p < 10000 := by omega
    simp [IndexTTSConverter.validate_audio_file, hex, h, hge]
  · intro h1 h2
    simp [IndexTTSConverter.validate_audio_file, hex, h1, h2]
  · simp [IndexTTSConverter.validate_audio_file, CoquiTTSConverter.validate_audio_file]

/-- Witness for the amended C3 statement: a 5 KB upload accepted by the
endpoint, and the sized validator (never invoked by the endpoint) rejecting
a 5 KB file while recommending a 2 MB file. -/
theorem C3_witness :
    (validate_audio [("b.wav", 5000)] (some ⟨"b.wav", 5000⟩)).validation
      = some ⟨true, some 5000, some "/tmp/temp_b.wav", none, none⟩ ∧
    IndexTTSConverter.validate_audio_file [("b.wav", 5000)] "b.wav"
      = ⟨false, none, none, none,
          some "Audio file too small (minimum 3 seconds recommended)"⟩ ∧
    IndexTTSConverter.validate_audio_file [("ref.wav", 2097152)] "ref.wav"
      = ⟨true, some 2097152, some "ref.wav", some true, none⟩ := by
  have h := C3_validation [("b.wav", 5000)] ⟨"b.wav", 5000⟩ "b.wav"
    (by decide) (by decide) (by decide)
  exact ⟨by simpa using h.1, h.2.1 (by decide), h.2.2.2.2.2⟩

/-! ## C2: text validation across endpoints -/

/-- A 5001-character text, used to probe the 5000-character limit. -/
def longText : String := String.mk (List.replicate 5001 'a')

theorem longText_length : longText.length = 5001 := by
  show (List.replicate 5001 'a').length = 5001
  rw [List.length_replicate]

/-- C2 counterexample: the Coqui synthesize endpoint accepts the
whitespace-only text `" "` (which is empty after trimming) and performs a
backend synthesis call with it — text validation is not uniform across
endpoints. -/
theorem C2_counterexample :
    stripEmpty " " = true ∧
    (coqui_synthesize ⟨true, XTTS_V2⟩ mbOk [] (some " ") "en" "ab12").status = 200 ∧
    (coqui_synthesize ⟨true, XTTS_V2⟩ mbOk [] (some " ") "en" "ab12").calls
      = [BackendCall.coquiTtsPlain " " (some "en") "/tmp/coqui_output_ab12.wav"] := by
  exact ⟨by decide, rfl, rfl⟩

/-- C2 amended: text validation differs per endpoint.  The Edge-TTS
text-to-speech endpoint and the Index-TTS clone endpoint reject
whitespace-only text and text longer than 5000 characters with a 400 before
any backend call; the Index-TTS synthesize-emotion endpoint rejects
whitespace-only text but has no length bound (a 5001-character text is
synthesized); the Coqui endpoints (synthesize and clone-voice) reject only
empty text, so whitespace-only and over-length texts reach the backend. -/
theorem C2_text_validation (vc : VoiceConverter) (ci : IndexTTSConverter)
    (cc : CoquiTTSConverter) (mb : BackendCall → Option String) (fs : FS)
    (text voice lang rnd : String) (f sf : UploadedFile) (req : EmotionRequest) :
    (stripEmpty text = true →
      text_to_speech vc mb fs (some text) (some voice) = ⟨400, fs, [], []⟩ ∧
      index_tts_clone_voice ci mb fs (some text) (some f) = ⟨400, fs, [], []⟩ ∧
      index_tts_synthesize_emotion ci mb fs
        ⟨some text, some sf, req.emotion_mode, req.emotionAudioFile,
          req.emotionVectorForm, req.emotion_intensity⟩ = ⟨400, fs, [], []⟩) ∧
    (text.length > 5000 →
      text_to_speech vc mb fs (some text) (some voice) = ⟨400, fs, [], []⟩ ∧
      index_tts_clone_voice ci mb fs (some text) (some f) = ⟨400, fs, [], []⟩) ∧
    (pyFalsy text = true →
      coqui_synthesize cc mb fs (some text) lang rnd = ⟨400, fs, [], []⟩ ∧
      coqui_clone_voice cc mb fs (some text) lang (some f) rnd rnd
        = ⟨400, fs, [], []⟩) ∧
    longText.length > 5000 ∧
    (index_tts_synthesize_emotion ⟨true⟩ mbOk []
        ⟨some longText, some ⟨"s.wav", 20000⟩, "none", none, none, 1⟩).status = 200 ∧
    (coqui_synthesize ⟨true, XTTS_V2⟩ mbOk [] (some longText) "en" "r").status = 200 ∧
    (coqui_clone_voice ⟨true, XTTS_V2⟩ mbOk [] (some " ") "en"
        (some ⟨"v.wav", 20000⟩) "ab" "cd").status = 200 ∧
    (coqui_clone_voice ⟨true, XTTS_V2⟩ mbOk [] (some longText) "en"
        (some ⟨"v.wav", 20000⟩) "ab" "cd").status = 200 := by
  refine ⟨fun h => ⟨?_, ?_, ?_⟩, fun h => ⟨?_, ?_⟩, fun h => ⟨?_, ?_⟩,
    by rw [longText_length]; norm_num, rfl, rfl, rfl, rfl⟩
  · simp [text_to_speech, h]
  · simp [index_tts_clone_voice, h]
  · simp [index_tts_synthesize_emotion, h]
  · by_cases hs : stripEmpty text = true
    · simp [text_to_speech, hs]
    · simp [text_to_speech, hs, h]
  · by_cases hs : stripEmpty text = true
    · simp [index_tts_clone_voice, hs]
    · simp [index_tts_clone_voice, hs, h]
  · simp [coqui_synthesize, h]
  · simp [coqui_clone_voice, h]

/-- Witness for the amended C2 statement: whitespace-only text rejected by
the Edge-TTS and Index-TTS-clone endpoints, empty text rejected by both
Coqui endpoints, all with no backend call. -/
theorem C2_witness :
    text_to_speech ⟨["en-US-AriaNeural"]⟩ mbOk [] (some " ") (some "en-US-AriaNeural")
      = ⟨400, [], [], []⟩ ∧
    index_tts_clone_voice ⟨true⟩ mbOk [] (some " ") (some ⟨"v.wav", 20000⟩)
      = ⟨400, [], [], []⟩ ∧
    coqui_synthesize ⟨true, XTTS_V2⟩ mbOk [] (some "") "en" "r" = ⟨400, [], [], []⟩ ∧
    coqui_clone_voice ⟨true, XTTS_V2⟩ mbOk [] (some "") "en" (some ⟨"v.wav", 20000⟩)
        "r" "r" = ⟨400, [], [], []⟩ := by
  have h1 := C2_text_validation ⟨["en-US-AriaNeural"]⟩ ⟨true⟩ ⟨true, XTTS_V2⟩ mbOk []
    " " "en-US-AriaNeural" "en" "r" ⟨"v.wav", 20000⟩ ⟨"v.wav", 20000⟩
    ⟨none, none, "none", none, none, 1⟩
  have h2 := C2_text_validation ⟨["en-US-AriaNeural"]⟩ ⟨true⟩ ⟨true, XTTS_V2⟩ mbOk []
    "" "en-US-AriaNeural" "en" "r" ⟨"v.wav", 20000⟩ ⟨"v.wav", 20000⟩
    ⟨none, none, "none", none, none, 1⟩
  exact ⟨(h1.1 (by decide)).1, (h1.1 (by decide)).2.1,
    (h2.2.2.1 (by decide)).1, (h2.2.2.1 (by decide)).2⟩

/-! ## C4: uniqueness of staged temporary paths -/

theorem coqui_random_path_inj (pre r1 r2 : String)
    (hpre : pre.data.all keepChar = true)
    (h1 : r1.data.all keepChar = true) (h2 : r2.data.all keepChar = true)
    (hne : r1 ≠ r2) :
    joinPath UPLOAD_FOLDER (secure_filename (pre ++ r1 ++ ".wav"))
      ≠ joinPath UPLOAD_FOLDER (secure_filename (pre ++ r2 ++ ".wav")) := by
  have k : ∀ r : String, r.data.all keepChar = true →
      (pre ++ r ++ ".wav").data.all keepChar = true := by
    intro r hr
    rw [strData_append, strData_append, List.all_append, List.all_append, hpre, hr]
    decide
  rw [secure_filename_eq_self _ (k r1 h1), secure_filename_eq_self _ (k r2 h2)]
  intro h
  have hf : pre ++ r1 ++ ".wav" = pre ++ r2 ++ ".wav" := joinPath_right_inj h
  have hd := congrArg String.data hf
  rw [strData_append, strData_append, strData_append, strData_append] at hd
  exact hne (strEq_of_data (List.append_cancel_left (List.append_cancel_right hd)))

theorem staged_convert_paths_ne (r1 r2 : String) :
    joinPath UPLOAD_FOLDER (secure_filename ("source_" ++ r1 ++ ".wav"))
      ≠ joinPath UPLOAD_FOLDER (secure_filename ("target_" ++ r2 ++ ".wav")) := by
  intro h
  have hn := joinPath_right_inj h
  have hd : ("source_" ++ r1 ++ ".wav").data.filter keepChar
      = ("target_" ++ r2 ++ ".wav").data.filter keepChar := congrArg String.data hn
  rw [strData_append, strData_append, strData_append, strData_append,
    List.filter_append, List.filter_append, List.filter_append, List.filter_append,
    show ("source_" : String).data.filter keepChar = ("source_" : String).data by decide,
    show ("target_" : String).data.filter keepChar = ("target_" : String).data by decide,
    show ("source_" : String).data = 's' :: ("ource_" : String).data by decide,
    show ("target_" : String).data = 't' :: ("arget_" : String).data by decide,
    List.cons_append, List.cons_append, List.cons_append, List.cons_append] at hd
  injection hd with hchar _
  exact absurd hchar (by decide)

theorem emotionCloneBranch_staged (conv : IndexTTSConverter)
    (mb : BackendCall → Option String) (fs1 : FS) (text spk out : String) :
    (emotionCloneBranch conv mb fs1 text spk out).staged = [spk] := by
  simp only [emotionCloneBranch]
  cases (IndexTTSConverter.clone_voice conv mb fs1 text spk out).result <;> rfl

theorem emotionVectorBranch_staged (conv : IndexTTSConverter)
    (mb : BackendCall → Option String) (fs1 : FS) (text spk out : String)
    (vec : List ℚ) :
    (emotionVectorBranch conv mb fs1 text spk out vec).staged = [spk] := by
  simp only [emotionVectorBranch]
  cases (IndexTTSConverter.synthesize_with_emotion_vector conv mb fs1 text spk
    vec out false).result <;> rfl

theorem emotionAudioBranch_staged (conv : IndexTTSConverter)
    (mb : BackendCall → Option String) (fs1 : FS) (text spk out : String)
    (ef : UploadedFile) (i : ℚ) :
    (emotionAudioBranch conv mb fs1 text spk out ef i).staged
      = [spk, joinPath UPLOAD_FOLDER ("emo_" ++ secure_filename ef.filename)] := by
  simp only [emotionAudioBranch]
  cases (IndexTTSConverter.synthesize_with_emotion_audio conv mb
    (fsSave fs1 (joinPath UPLOAD_FOLDER ("emo_" ++ secure_filename ef.filename))
      ef.contentSize)
    text spk (joinPath UPLOAD_FOLDER ("emo_" ++ secure_filename ef.filename))
    out i).result <;> rfl

/-- C4 counterexample: two distinct requests (different text and different
upload contents) whose uploads carry the same client filename are staged by
the Index-TTS clone endpoint to the very same temporary path
`/tmp/ref_voice.wav` — no random suffix is used there. -/
theorem C4_counterexample :
    ((some "hello", (⟨"voice.wav", 20000⟩ : UploadedFile))
       ≠ (some "goodbye", (⟨"voice.wav", 30000⟩ : UploadedFile))) ∧
    (index_tts_clone_voice ⟨false⟩ mbOk [] (some "hello")
        (some ⟨"voice.wav", 20000⟩)).staged = ["/tmp/ref_voice.wav"] ∧
    (index_tts_clone_voice ⟨false⟩ mbOk [] (some "goodbye")
        (some ⟨"voice.wav", 30000⟩)).staged = ["/tmp/ref_voice.wav"] := by
  exact ⟨by decide, rfl, rfl⟩

/-- C4 amended: the Coqui endpoints (clone-voice and convert-voice) stage
uploads under per-request random hex suffixes — distinct sanitizer-preserved
suffixes give distinct staged paths, and the source and target paths of a
conversion are always distinct; but the Index-TTS endpoints (clone and all
three synthesize-emotion modes) and validate-audio derive the staged path
deterministically from the client filename alone, so two distinct requests
uploading files with the same client filename stage to the same path. -/
theorem C4_staged_path_uniqueness (ci : IndexTTSConverter) (cc : CoquiTTSConverter)
    (mb : BackendCall → Option String) (fs : FS) (text lang : String)
    (f ef : UploadedFile) (vec : List ℚ) (rS rO rSrc rTgt rOut r1 r2 : String)
    (hstrip : stripEmpty text = false) (hlen : ¬ text.length > 5000)
    (hff : pyFalsy f.filename = false) (hal : allowed_file f.filename = true)
    (hpf : pyFalsy text = false)
    (h1 : r1.data.all keepChar = true) (h2 : r2.data.all keepChar = true)
    (hne : r1 ≠ r2) :
    (index_tts_clone_voice ci mb fs (some text) (some f)).staged
      = [joinPath UPLOAD_FOLDER ("ref_" ++ secure_filename f.filename)] ∧
    (index_tts_synthesize_emotion ci mb fs
        ⟨some text, some f, "none", none, none, 1⟩).staged
      = [joinPath UPLOAD_FOLDER ("spk_" ++ secure_filename f.filename)] ∧
    (index_tts_synthesize_emotion ci mb fs
        ⟨some text, some f, "vector", none, some vec, 1⟩).staged
      = [joinPath UPLOAD_FOLDER ("spk_" ++ secure_filename f.filename)] ∧
    (index_tts_synthesize_emotion ⟨true⟩ mb fs
        ⟨some text, some f, "audio", some ef, none, 1⟩).staged
      = [joinPath UPLOAD_FOLDER ("spk_" ++ secure_filename f.filename),
         joinPath UPLOAD_FOLDER ("emo_" ++ secure_filename ef.filename)] ∧
    (validate_audio fs (some f)).validation
      = some ⟨true, some f.contentSize,
          some (joinPath UPLOAD_FOLDER ("temp_" ++ secure_filename f.filename)),
          none, none⟩ ∧
    (coqui_clone_voice cc mb fs (some text) lang (some f) rS rO).staged
      = [joinPath UPLOAD_FOLDER (secure_filename ("speaker_" ++ rS ++ ".wav"))] ∧
    (coqui_convert_voice cc mb fs (some f) (some f) rSrc rTgt rOut).staged
      = [joinPath UPLOAD_FOLDER (secure_filename ("source_" ++ rSrc ++ ".wav")),
         joinPath UPLOAD_FOLDER (secure_filename ("target_" ++ rTgt ++ ".wav"))] ∧
    joinPath UPLOAD_FOLDER (secure_filename ("speaker_" ++ r1 ++ ".wav"))
      ≠ joinPath UPLOAD_FOLDER (secure_filename ("speaker_" ++ r2 ++ ".wav")) ∧
    joinPath UPLOAD_FOLDER (secure_filename ("source_" ++ r1 ++ ".wav"))
      ≠ joinPath UPLOAD_FOLDER (secure_filename ("source_" ++ r2 ++ ".wav")) ∧
    joinPath UPLOAD_FOLDER (secure_filename ("target_" ++ r1 ++ ".wav"))
      ≠ joinPath UPLOAD_FOLDER (secure_filename ("target_" ++ r2 ++ ".wav")) ∧
    joinPath UPLOAD_FOLDER (secure_filename ("source_" ++ rSrc ++ ".wav"))
      ≠ joinPath UPLOAD_FOLDER (secure_filename ("target_" ++ rTgt ++ ".wav")) := by
  refine ⟨?_, ?_, ?_, ?_, ?_, ?_, ?_,
    coqui_random_path_inj "speaker_" r1 r2 (by decide) h1 h2 hne,
    coqui_random_path_inj "source_" r1 r2 (by decide) h1 h2 hne,
    coqui_random_path_inj "target_" r1 r2 (by decide) h1 h2 hne,
    staged_convert_paths_ne rSrc rTgt⟩
  · unfold index_tts_clone_voice
    simp only [hstrip, hlen, hff, hal, Bool.not_true, Bool.false_eq_true, if_false,
      Bool.not_false, if_true, ite_false, ite_true]
    by_cases hA : ci.is_model_available = true
    · simp only [hA, Bool.not_true, Bool.false_eq_true, if_false]
      cases (IndexTTSConverter.clone_voice ci mb
        (fsSave fs (joinPath UPLOAD_FOLDER ("ref_" ++ secure_filename f.filename))
          f.contentSize) text
        (joinPath UPLOAD_FOLDER ("ref_" ++ secure_filename f.filename))
        (joinPath UPLOAD_FOLDER "output_index_tts.wav")).result <;> rfl
    · simp only [Bool.not_eq_true] at hA
      simp [hA]
  · by_cases hA : ci.is_model_available = true
    · simp [index_tts_synthesize_emotion, hstrip, hff, hal, hA,
        emotionCloneBranch_staged]
    · simp [index_tts_synthesize_emotion, hstrip, hff, hal, hA]
  · by_cases hA : ci.is_model_available = true
    · simp [index_tts_synthesize_emotion, hstrip, hff, hal, hA,
        emotionVectorBranch_staged]
    · simp [index_tts_synthesize_emotion, hstrip, hff, hal, hA]
  · simp [index_tts_synthesize_emotion, IndexTTSConverter.is_model_available,
      hstrip, hff, hal, emotionAudioBranch_staged]
  · simp [validate_audio, hff, hal, VoiceConverter.validate_audio_file,
      pathExists_fsSave_self, fileSize_fsSave_self]
  · unfold coqui_clone_voice
    simp only [hpf, hff, hal, Bool.not_true, Bool.false_eq_true, if_false,
      Bool.not_false, if_true, ite_false, ite_true]
    by_cases hA : cc.is_model_available = true
    · simp only [hA, Bool.not_true, Bool.false_eq_true, if_false]
      cases (CoquiTTSConverter.clone_voice cc mb
        (fsSave fs (joinPath UPLOAD_FOLDER
          (secure_filename ("speaker_" ++ rS ++ ".wav"))) f.contentSize) text
        (joinPath UPLOAD_FOLDER (secure_filename ("speaker_" ++ rS ++ ".wav")))
        (joinPath UPLOAD_FOLDER ("coqui_cloned_" ++ rO ++ ".wav")) lang).result <;> rfl
    · simp only [Bool.not_eq_true] at hA
      simp [hA]
  · unfold coqui_convert_voice
    simp only [hff, hal, Bool.not_true, Bool.false_eq_true, if_false,
      Bool.not_false, if_true, ite_false, ite_true, Bool.or_self]
    by_cases hA : cc.is_model_available = true
    · simp only [hA, Bool.not_true, Bool.false_eq_true, if_false]
      cases (CoquiTTSConverter.convert_voice cc mb
        (fsSave (fsSave fs (joinPath UPLOAD_FOLDER
            (secure_filename ("source_" ++ rSrc ++ ".wav"))) f.contentSize)
          (joinPath UPLOAD_FOLDER (secure_filename ("target_" ++ rTgt ++ ".wav")))
          f.contentSize)
        (joinPath UPLOAD_FOLDER (secure_filename ("source_" ++ rSrc ++ ".wav")))
        (joinPath UPLOAD_FOLDER (secure_filename ("target_" ++ rTgt ++ ".wav")))
        (joinPath UPLOAD_FOLDER ("coqui_converted_" ++ rOut ++ ".wav"))).result <;> rfl
    · simp only [Bool.not_eq_true] at hA
      simp [hA]

/-- Witness for the amended C4 statement at concrete inputs. -/
theorem C4_witness :
    (index_tts_clone_voice ⟨true⟩ mbOk [] (some "hi") (some ⟨"voice.wav", 20000⟩)).staged
      = [joinPath UPLOAD_FOLDER ("ref_" ++ secure_filename "voice.wav")] ∧
    (index_tts_synthesize_emotion ⟨true⟩ mbOk []
        ⟨some "hi", some ⟨"voice.wav", 20000⟩, "audio", some ⟨"e.wav", 30000⟩,
          none, 1⟩).staged
      = [joinPath UPLOAD_FOLDER ("spk_" ++ secure_filename "voice.wav"),
         joinPath UPLOAD_FOLDER ("emo_" ++ secure_filename "e.wav")] ∧
    (coqui_clone_voice ⟨true, XTTS_V2⟩ mbOk [] (some "hi") "en"
        (some ⟨"voice.wav", 20000⟩) "aabb" "cc").staged
      = [joinPath UPLOAD_FOLDER (secure_filename ("speaker_" ++ "aabb" ++ ".wav"))] ∧
    (coqui_convert_voice ⟨true, XTTS_V2⟩ mbOk [] (some ⟨"voice.wav", 20000⟩)
        (some ⟨"voice.wav", 20000⟩) "aabb" "ccad" "ee").staged
      = [joinPath UPLOAD_FOLDER (secure_filename ("source_" ++ "aabb" ++ ".wav")),
         joinPath UPLOAD_FOLDER (secure_filename ("target_" ++ "ccad" ++ ".wav"))] ∧
    joinPath UPLOAD_FOLDER (secure_filename ("speaker_" ++ "aa" ++ ".wav"))
      ≠ joinPath UPLOAD_FOLDER (secure_filename ("speaker_" ++ "bb" ++ ".wav")) ∧
    joinPath UPLOAD_FOLDER (secure_filename ("source_" ++ "aabb" ++ ".wav"))
      ≠ joinPath UPLOAD_FOLDER (secure_filename ("target_" ++ "ccad" ++ ".wav")) := by
  have h := C4_staged_path_uniqueness ⟨true⟩ ⟨true, XTTS_V2⟩ mbOk [] "hi" "en"
    ⟨"voice.wav", 20000⟩ ⟨"e.wav", 30000⟩ [] "aabb" "cc" "aabb" "ccad" "ee" "aa" "bb"
    (by decide) (by decide) (by decide) (by decide) (by decide)
    (by decide) (by decide) (by decide)
  exact ⟨h.1, h.2.2.2.1, h.2.2.2.2.2.1, h.2.2.2.2.2.2.1,
    h.2.2.2.2.2.2.2.1, h.2.2.2.2.2.2.2.2.2.2⟩

theorem pathExists_fsRemove_other (fs : FS) (p q : String) (hpq : p ≠ q) :
    pathExists (fsRemove fs q) p = pathExists fs p := by
  induction fs with
  | nil => rfl
  | cons e t ih =>
    by_cases h : e.1 == q
    · have he : e.1 = q := by simpa [beq_iff_eq] using h
      have hp : (e.1 == p) = false := by
        simp only [beq_iff_eq, he]
        exact decide_eq_false fun hc => hpq hc.symm
      have hstep : fsRemove (e :: t) q = fsRemove t q := by
        simp [fsRemove, List.filter_cons, h]
      rw [hstep, ih,
        show pathExists (e :: t) p = ((e.1 == p) || pathExists t p) from rfl,
        hp, Bool.false_or]
    · have hstep : fsRemove (e :: t) q = e :: fsRemove t q := by
        simp [fsRemove, List.filter_cons, h]
      rw [hstep,
        show pathExists (e :: fsRemove t q) p
          = ((e.1 == p) || pathExists (fsRemove t q) p) from rfl, ih]
      rfl

theorem pathExists_fsSave_mono (fs : FS) (p q : String) (sz : Nat)
    (h : pathExists fs p = true) : pathExists (fsSave fs q sz) p = true := by
  by_cases hpq : p = q
  · subst hpq; exact pathExists_fsSave_self fs p sz
  · have h2 : pathExists (fsRemove fs q) p = true :=
      (pathExists_fsRemove_other fs p q hpq).trans h
    show pathExists ((q, sz) :: fsRemove fs q) p = true
    simp [pathExists] at h2 ⊢
    exact Or.inr h2

/-- C1 counterexample: a clone-voice request that staged its reference
upload and whose backend call raised ends with status 500 and the staged
file still on disk — 1 of the 1 staged input files remains. -/
theorem C1_counterexample :
    (index_tts_clone_voice ⟨true⟩ mbFail [] (some "hello")
        (some ⟨"v.wav", 20000⟩)).status = 500 ∧
    (index_tts_clone_voice ⟨true⟩ mbFail [] (some "hello")
        (some ⟨"v.wav", 20000⟩)).staged = ["/tmp/ref_v.wav"] ∧
    pathExists (index_tts_clone_voice ⟨true⟩ mbFail [] (some "hello")
        (some ⟨"v.wav", 20000⟩)).fsAfter "/tmp/ref_v.wav" = true := by
  exact ⟨rfl, rfl, rfl⟩

theorem pyFalsy_of_stripEmpty_false {s : String} (h : stripEmpty s = false) :
    pyFalsy s = false := by
  rcases hd : s.data with _ | ⟨c, cs⟩
  · rw [stripEmpty, hd] at h
    simp at h
  · rw [pyFalsy, hd]
    rfl

/-- C1 amended: staged temporary input files are removed only on the
success path.  For every endpoint that stages uploads — Index-TTS clone,
Index-TTS synthesize-emotion in its audio, vector and no-emotion modes,
Coqui clone-voice and Coqui convert-voice — a successful backend call ends
with status 200 and every staged input file removed, while a raising
backend call ends 500 and an unavailable engine ends 503 with the staged
input files still on disk. -/
theorem C1_cleanup_only_on_success (mb : BackendCall → Option String)
    (msg : String) (fs : FS) (text lang mname : String) (f ef : UploadedFile)
    (vec : List ℚ) (rS rO rSrc rTgt rOut : String)
    (hstrip : stripEmpty text = false) (hlen : ¬ text.length > 5000)
    (hff : pyFalsy f.filename = false) (hal : allowed_file f.filename = true)
    (hv8 : vec.length = 8) :
    ((∀ c', mb c' = none) →
      (index_tts_clone_voice ⟨true⟩ mb fs (some text) (some f)).status = 200 ∧
      pathExists (index_tts_clone_voice ⟨true⟩ mb fs (some text) (some f)).fsAfter
        (joinPath UPLOAD_FOLDER ("ref_" ++ secure_filename f.filename)) = false) ∧
    ((∀ c', mb c' = some msg) →
      (index_tts_clone_voice ⟨true⟩ mb fs (some text) (some f)).status = 500 ∧
      pathExists (index_tts_clone_voice ⟨true⟩ mb fs (some text) (some f)).fsAfter
        (joinPath UPLOAD_FOLDER ("ref_" ++ secure_filename f.filename)) = true) ∧
    ((index_tts_clone_voice ⟨false⟩ mb fs (some text) (some f)).status = 503 ∧
      pathExists (index_tts_clone_voice ⟨false⟩ mb fs (some text) (some f)).fsAfter
        (joinPath UPLOAD_FOLDER ("ref_" ++ secure_filename f.filename)) = true) ∧
    ((∀ c', mb c' = none) →
      (index_tts_synthesize_emotion ⟨true⟩ mb fs
        ⟨some text, some f, "audio", some ef, none, 1⟩).status = 200 ∧
      pathExists (index_tts_synthesize_emotion ⟨true⟩ mb fs
          ⟨some text, some f, "audio", some ef, none, 1⟩).fsAfter
        (joinPath UPLOAD_FOLDER ("spk_" ++ secure_filename f.filename)) = false ∧
      pathExists (index_tts_synthesize_emotion ⟨true⟩ mb fs
          ⟨some text, some f, "audio", some ef, none, 1⟩).fsAfter
        (joinPath UPLOAD_FOLDER ("emo_" ++ secure_filename ef.filename)) = false) ∧
    ((∀ c', mb c' = some msg) →
      (index_tts_synthesize_emotion ⟨true⟩ mb fs
        ⟨some text, some f, "audio", some ef, none, 1⟩).status = 500 ∧
      pathExists (index_tts_synthesize_emotion ⟨true⟩ mb fs
          ⟨some text, some f, "audio", some ef, none, 1⟩).fsAfter
        (joinPath UPLOAD_FOLDER ("spk_" ++ secure_filename f.filename)) = true ∧
      pathExists (index_tts_synthesize_emotion ⟨true⟩ mb fs
          ⟨some text, some f, "audio", some ef, none, 1⟩).fsAfter
        (joinPath UPLOAD_FOLDER ("emo_" ++ secure_filename ef.filename)) = true) ∧
    ((∀ c', mb c' = none) →
      (index_tts_synthesize_emotion ⟨true⟩ mb fs
        ⟨some text, some f, "vector", none, some vec, 1⟩).status = 200 ∧
      pathExists (index_tts_synthesize_emotion ⟨true⟩ mb fs
          ⟨some text, some f, "vector", none, some vec, 1⟩).fsAfter
        (joinPath UPLOAD_FOLDER ("spk_" ++ secure_filename f.filename)) = false) ∧
    ((∀ c', mb c' = some msg) →
      (index_tts_synthesize_emotion ⟨true⟩ mb fs
        ⟨some text, some f, "vector", none, some vec, 1⟩).status = 500 ∧
      pathExists (index_tts_synthesize_emotion ⟨true⟩ mb fs
          ⟨some text, some f, "vector", none, some vec, 1⟩).fsAfter
        (joinPath UPLOAD_FOLDER ("spk_" ++ secure_filename f.filename)) = true) ∧
    ((∀ c', mb c' = none) →
      (index_tts_synthesize_emotion ⟨true⟩ mb fs
        ⟨some text, some f, "none", none, none, 1⟩).status = 200 ∧
      pathExists (index_tts_synthesize_emotion ⟨true⟩ mb fs
          ⟨some text, some f, "none", none, none, 1⟩).fsAfter
        (joinPath UPLOAD_FOLDER ("spk_" ++ secure_filename f.filename)) = false) ∧
    ((∀ c', mb c' = some msg) →
      (index_tts_synthesize_emotion ⟨true⟩ mb fs
        ⟨some text, some f, "none", none, none, 1⟩).status = 500 ∧
      pathExists (index_tts_synthesize_emotion ⟨true⟩ mb fs
          ⟨some text, some f, "none", none, none, 1⟩).fsAfter
        (joinPath UPLOAD_FOLDER ("spk_" ++ secure_filename f.filename)) = true) ∧
    ((index_tts_synthesize_emotion ⟨false⟩ mb fs
        ⟨some text, some f, "none", none, none, 1⟩).status = 503 ∧
      pathExists (index_tts_synthesize_emotion ⟨false⟩ mb fs
          ⟨some text, some f, "none", none, none, 1⟩).fsAfter
        (joinPath UPLOAD_FOLDER ("spk_" ++ secure_filename f.filename)) = true) ∧
    ((∀ c', mb c' = none) →
      (coqui_clone_voice ⟨true, mname⟩ mb fs (some text) lang (some f) rS rO).status
        = 200 ∧
      pathExists (coqui_clone_voice ⟨true, mname⟩ mb fs (some text) lang (some f)
          rS rO).fsAfter
        (joinPath UPLOAD_FOLDER (secure_filename ("speaker_" ++ rS ++ ".wav"))) = false) ∧
    ((∀ c', mb c' = some msg) →
      (coqui_clone_voice ⟨true, mname⟩ mb fs (some text) lang (some f) rS rO).status
        = 500 ∧
      pathExists (coqui_clone_voice ⟨true, mname⟩ mb fs (some text) lang (some f)
          rS rO).fsAfter
        (joinPath UPLOAD_FOLDER (secure_filename ("speaker_" ++ rS ++ ".wav"))) = true) ∧
    ((coqui_clone_voice ⟨false, mname⟩ mb fs (some text) lang (some f) rS rO).status
        = 503 ∧
      pathExists (coqui_clone_voice ⟨false, mname⟩ mb fs (some text) lang (some f)
          rS rO).fsAfter
        (joinPath UPLOAD_FOLDER (secure_filename ("speaker_" ++ rS ++ ".wav"))) = true) ∧
    ((∀ c', mb c' = none) →
      (coqui_convert_voice ⟨true, mname⟩ mb fs (some f) (some f) rSrc rTgt rOut).status
        = 200 ∧
      pathExists (coqui_convert_voice ⟨true, mname⟩ mb fs (some f) (some f)
          rSrc rTgt rOut).fsAfter
        (joinPath UPLOAD_FOLDER (secure_filename ("source_" ++ rSrc ++ ".wav"))) = false ∧
      pathExists (coqui_convert_voice ⟨true, mname⟩ mb fs (some f) (some f)
          rSrc rTgt rOut).fsAfter
        (joinPath UPLOAD_FOLDER (secure_filename ("target_" ++ rTgt ++ ".wav"))) = false) ∧
    ((∀ c', mb c' = some msg) →
      (coqui_convert_voice ⟨true, mname⟩ mb fs (some f) (some f) rSrc rTgt rOut).status
        = 500 ∧
      pathExists (coqui_convert_voice ⟨true, mname⟩ mb fs (some f) (some f)
          rSrc rTgt rOut).fsAfter
        (joinPath UPLOAD_FOLDER (secure_filename ("source_" ++ rSrc ++ ".wav"))) = true ∧
      pathExists (coqui_convert_voice ⟨true, mname⟩ mb fs (some f) (some f)
          rSrc rTgt rOut).fsAfter
        (joinPath UPLOAD_FOLDER (secure_filename ("target_" ++ rTgt ++ ".wav"))) = true) ∧
    ((coqui_convert_voice ⟨false, mname⟩ mb fs (some f) (some f) rSrc rTgt rOut).status
        = 503 ∧
      pathExists (coqui_convert_voice ⟨false, mname⟩ mb fs (some f) (some f)
          rSrc rTgt rOut).fsAfter
        (joinPath UPLOAD_FOLDER (secure_filename ("source_" ++ rSrc ++ ".wav"))) = true ∧
      pathExists (coqui_convert_voice ⟨false, mname⟩ mb fs (some f) (some f)
          rSrc rTgt rOut).fsAfter
        (joinPath UPLOAD_FOLDER (secure_filename ("target_" ++ rTgt ++ ".wav"))) = true) := by
  have hst := staged_convert_paths_ne rSrc rTgt
  have hts := Ne.symm hst
  refine ⟨fun hm => ?_, fun hm => ?_, ?_, fun hm => ?_, fun hm => ?_, fun hm => ?_,
    fun hm => ?_, fun hm => ?_, fun hm => ?_, ?_, fun hm => ?_, fun hm => ?_, ?_,
    fun hm => ?_, fun hm => ?_, ?_⟩
  · constructor <;>
      simp [index_tts_clone_voice, IndexTTSConverter.clone_voice,
        IndexTTSConverter.is_model_available, hstrip, hlen, hff, hal, hm,
        pathExists_fsSave_self, pathExists_fsRemove_self]
  · constructor <;>
      simp [index_tts_clone_voice, IndexTTSConverter.clone_voice,
        IndexTTSConverter.is_model_available, hstrip, hlen, hff, hal, hm,
        pathExists_fsSave_self]
  · constructor <;>
      simp [index_tts_clone_voice, IndexTTSConverter.is_model_available,
        hstrip, hlen, hff, hal, pathExists_fsSave_self]
  · refine ⟨?_, ?_, ?_⟩ <;>
      simp [index_tts_synthesize_emotion, emotionAudioBranch,
        IndexTTSConverter.synthesize_with_emotion_audio,
        IndexTTSConverter.is_model_available, hstrip, hff, hal, hm,
        pathExists_fsSave_self, pathExists_fsSave_mono,
        pathExists_fsRemove_self, pathExists_fsRemove_false]
  · refine ⟨?_, ?_, ?_⟩ <;>
      simp [index_tts_synthesize_emotion, emotionAudioBranch,
        IndexTTSConverter.synthesize_with_emotion_audio,
        IndexTTSConverter.is_model_available, hstrip, hff, hal, hm,
        pathExists_fsSave_self, pathExists_fsSave_mono]
  · constructor <;>
      simp [index_tts_synthesize_emotion, emotionVectorBranch,
        IndexTTSConverter.synthesize_with_emotion_vector,
        IndexTTSConverter.is_model_available, hstrip, hff, hal, hm, hv8,
        pathExists_fsSave_self, pathExists_fsRemove_self]
  · constructor <;>
      simp [index_tts_synthesize_emotion, emotionVectorBranch,
        IndexTTSConverter.synthesize_with_emotion_vector,
        IndexTTSConverter.is_model_available, hstrip, hff, hal, hm, hv8,
        pathExists_fsSave_self]
  · constructor <;>
      simp [index_tts_synthesize_emotion, emotionCloneBranch,
        IndexTTSConverter.clone_voice, IndexTTSConverter.is_model_available,
        hstrip, hff, hal, hm, pathExists_fsSave_self, pathExists_fsRemove_self]
  · constructor <;>
      simp [index_tts_synthesize_emotion, emotionCloneBranch,
        IndexTTSConverter.clone_voice, IndexTTSConverter.is_model_available,
        hstrip, hff, hal, hm, pathExists_fsSave_self]
  · constructor <;>
      simp [index_tts_synthesize_emotion, IndexTTSConverter.is_model_available,
        hstrip, hff, hal, pathExists_fsSave_self]
  · constructor <;>
      simp [coqui_clone_voice, CoquiTTSConverter.clone_voice,
        CoquiTTSConverter.is_model_available, hstrip,
        pyFalsy_of_stripEmpty_false hstrip, hff, hal, hm,
        pathExists_fsSave_self, pathExists_fsSave_mono, pathExists_fsRemove_self]
  · constructor <;>
      simp [coqui_clone_voice, CoquiTTSConverter.clone_voice,
        CoquiTTSConverter.is_model_available, hstrip,
        pyFalsy_of_stripEmpty_false hstrip, hff, hal, hm, pathExists_fsSave_self]
  · constructor <;>
      simp [coqui_clone_voice, CoquiTTSConverter.is_model_available, hstrip,
        pyFalsy_of_stripEmpty_false hstrip, hff, hal, pathExists_fsSave_self]
  · refine ⟨?_, ?_, ?_⟩ <;>
      simp [coqui_convert_voice, CoquiTTSConverter.convert_voice,
        CoquiTTSConverter.is_model_available, hff, hal, hm, hst, hts,
        pathExists_fsSave_self, pathExists_fsSave_mono,
        pathExists_fsRemove_self, pathExists_fsRemove_false,
        pathExists_fsRemove_other]
  · refine ⟨?_, ?_, ?_⟩ <;>
      simp [coqui_convert_voice, CoquiTTSConverter.convert_voice,
        CoquiTTSConverter.is_model_available, hff, hal, hm,
        pathExists_fsSave_self, pathExists_fsSave_mono]
  · refine ⟨?_, ?_, ?_⟩ <;>
      simp [coqui_convert_voice, CoquiTTSConverter.is_model_available, hff, hal,
        pathExists_fsSave_self, pathExists_fsSave_mono]

/-- Witness for the amended C1 statement: a successful clone removes the
staged reference while a raising backend leaves it; in audio mode both
staged files are removed on success; a successful Coqui conversion removes
both staged files while a raising one leaves both. -/
theorem C1_witness :
    ((index_tts_clone_voice ⟨true⟩ mbOk [] (some "hi") (some ⟨"v.wav", 20000⟩)).status
        = 200 ∧
      pathExists (index_tts_clone_voice ⟨true⟩ mbOk [] (some "hi")
          (some ⟨"v.wav", 20000⟩)).fsAfter
        (joinPath UPLOAD_FOLDER ("ref_" ++ secure_filename "v.wav")) = false) ∧
    ((index_tts_clone_voice ⟨true⟩ mbFail [] (some "hi") (some ⟨"v.wav", 20000⟩)).status
        = 500 ∧
      pathExists (index_tts_clone_voice ⟨true⟩ mbFail [] (some "hi")
          (some ⟨"v.wav", 20000⟩)).fsAfter
        (joinPath UPLOAD_FOLDER ("ref_" ++ secure_filename "v.wav")) = true) ∧
    ((index_tts_synthesize_emotion ⟨true⟩ mbOk []
        ⟨some "hi", some ⟨"v.wav", 20000⟩, "audio", some ⟨"e.wav", 30000⟩,
          none, 1⟩).status = 200 ∧
      pathExists (index_tts_synthesize_emotion ⟨true⟩ mbOk []
          ⟨some "hi", some ⟨"v.wav", 20000⟩, "audio", some ⟨"e.wav", 30000⟩,
            none, 1⟩).fsAfter
        (joinPath UPLOAD_FOLDER ("spk_" ++ secure_filename "v.wav")) = false ∧
      pathExists (index_tts_synthesize_emotion ⟨true⟩ mbOk []
          ⟨some "hi", some ⟨"v.wav", 20000⟩, "audio", some ⟨"e.wav", 30000⟩,
            none, 1⟩).fsAfter
        (joinPath UPLOAD_FOLDER ("emo_" ++ secure_filename "e.wav")) = false) ∧
    ((coqui_convert_voice ⟨true, XTTS_V2⟩ mbOk [] (some ⟨"v.wav", 20000⟩)
        (some ⟨"v.wav", 20000⟩) "cc" "dd" "ee").status = 200 ∧
      pathExists (coqui_convert_voice ⟨true, XTTS_V2⟩ mbOk [] (some ⟨"v.wav", 20000⟩)
          (some ⟨"v.wav", 20000⟩) "cc" "dd" "ee").fsAfter
        (joinPath UPLOAD_FOLDER (secure_filename ("source_" ++ "cc" ++ ".wav"))) = false ∧
      pathExists (coqui_convert_voice ⟨true, XTTS_V2⟩ mbOk [] (some ⟨"v.wav", 20000⟩)
          (some ⟨"v.wav", 20000⟩) "cc" "dd" "ee").fsAfter
        (joinPath UPLOAD_FOLDER (secure_filename ("target_" ++ "dd" ++ ".wav"))) = false) ∧
    ((coqui_convert_voice ⟨true, XTTS_V2⟩ mbFail [] (some ⟨"v.wav", 20000⟩)
        (some ⟨"v.wav", 20000⟩) "cc" "dd" "ee").status = 500 ∧
      pathExists (coqui_convert_voice ⟨true, XTTS_V2⟩ mbFail [] (some ⟨"v.wav", 20000⟩)
          (some ⟨"v.wav", 20000⟩) "cc" "dd" "ee").fsAfter
        (joinPath UPLOAD_FOLDER (secure_filename ("source_" ++ "cc" ++ ".wav"))) = true ∧
      pathExists (coqui_convert_voice ⟨true, XTTS_V2⟩ mbFail [] (some ⟨"v.wav", 20000⟩)
          (some ⟨"v.wav", 20000⟩) "cc" "dd" "ee").fsAfter
        (joinPath UPLOAD_FOLDER (secure_filename ("target_" ++ "dd" ++ ".wav"))) = true) := by
  have hOk := C1_cleanup_only_on_success mbOk "model error" [] "hi" "en" XTTS_V2
    ⟨"v.wav", 20000⟩ ⟨"e.wav", 30000⟩ [0, 0, 0, 0, 0, 0, 0, 1] "aa" "bb" "cc" "dd" "ee"
    (by decide) (by decide) (by decide) (by decide) (by decide)
  have hFail := C1_cleanup_only_on_success mbFail "model error" [] "hi" "en" XTTS_V2
    ⟨"v.wav", 20000⟩ ⟨"e.wav", 30000⟩ [0, 0, 0, 0, 0, 0, 0, 1] "aa" "bb" "cc" "dd" "ee"
    (by decide) (by decide) (by decide) (by decide) (by decide)
  exact ⟨hOk.1 (fun c' => rfl), hFail.2.1 (fun c' => rfl),
    hOk.2.2.2.1 (fun c' => rfl),
    hOk.2.2.2.2.2.2.2.2.2.2.2.2.2.1 (fun c' => rfl),
    hFail.2.2.2.2.2.2.2.2.2.2.2.2.2.2.1 (fun c' => rfl)⟩
